import Mathlib

/-!
Verification development for the NyayaAI agent-orchestration engine.

Shallow embedding of the Python sources under `src/`:
* scores and confidences are modelled as exact rationals (`Score := ℚ`);
* Python dict accesses `d.get(k, default)` are modelled by `Option` fields
  with `Option.getD` (a `none` field means the key is absent);
* Python strings are Lean `String`s; `s[:n]` is `pyTake s n`, `s[a:b]` is
  `pyTake (pyDrop s a) (b - a)`, `needle in hay` is `containsSub needle hay`;
* external services (the Groq chat-completion provider, the Qdrant vector
  store, the embedding model, Tavily web search) are inputs: each call site
  is parameterised by the value the service returns, and a call that the
  Python wrapper catches internally is modelled by the wrapper's returned
  value, exactly as the source converts it.
-/

set_option linter.unusedVariables false

namespace Nyaya

/-- Similarity scores and confidences (Python floats) are modelled as exact
rationals. -/
abbrev Score := ℚ

/-- Python character-based slicing prefix `s[:n]`. -/
def pyTake (s : String) (n : Nat) : String := String.mk (s.toList.take n)

/-- Python character-based slicing suffix `s[n:]`. -/
def pyDrop (s : String) (n : Nat) : String := String.mk (s.toList.drop n)

/-- Python `s[-n:]` for `n ≤ len(s)`. -/
def pyTakeRight (s : String) (n : Nat) : String := pyDrop s (s.length - n)

/-- Python's truthy-`or` on strings: `a or b` is `a` unless `a` is empty. -/
def pyOrS (a b : String) : String := if a = "" then b else a

/-- Python `str.lower()` (character-wise, as in the ASCII strings used by
the sources). -/
def pyLower (s : String) : String := String.mk (s.toList.map Char.toLower)

/-- Python `str.upper()`. -/
def pyUpper (s : String) : String := String.mk (s.toList.map Char.toUpper)

/-- Drop leading whitespace characters. -/
def dropWs : List Char → List Char
  | [] => []
  | c :: rest => if c.isWhitespace then dropWs rest else c :: rest

/-- Python `str.strip()`: remove whitespace from both ends. -/
def pyStrip (s : String) : String :=
  String.mk ((dropWs ((dropWs s.toList).reverse)).reverse)

/-- Python `str.split()` with no argument: split on whitespace runs,
dropping empty pieces. -/
def splitWsAux (acc : List Char) : List Char → List (List Char)
  | [] => if acc.isEmpty then [] else [acc.reverse]
  | c :: rest =>
    if c.isWhitespace then
      if acc.isEmpty then splitWsAux [] rest else acc.reverse :: splitWsAux [] rest
    else splitWsAux (c :: acc) rest

/-- Python `str.split()` on a string. -/
def pySplitWs (s : String) : List String :=
  (splitWsAux [] s.toList).map String.mk

/-- Python `sep.join(parts)`. -/
def joinSep (sep : String) : List String → String
  | [] => ""
  | [x] => x
  | x :: rest => x ++ sep ++ joinSep sep rest

/-- Auxiliary scan for the substring test: does `needle` occur in the hay? -/
def containsSubAux (needle : List Char) : List Char → Bool
  | [] => needle.isEmpty
  | c :: rest => needle.isPrefixOf (c :: rest) || containsSubAux needle rest

/-- Python's substring test `needle in hay`. -/
def containsSub (needle hay : String) : Bool :=
  containsSubAux needle.toList hay.toList

/-- A string prefix test on the underlying character lists. -/
def strStartsWith (pre s : String) : Bool :=
  pre.toList.isPrefixOf s.toList

/-! ## GenerationGateway: `GroqLLM.generate_response` (src/llm/groq_client.py)

The provider call `self.client.chat.completions.create(...)` followed by
`response.choices[0].message.content` is modelled as an input of type
`Except String (Option String)`: `.error e` is a raised provider-side
exception, `.ok c` a returned message content (`none` = null content). -/

/-- `GroqLLM.generate_response` (src/llm/groq_client.py lines 278-310): the
provider outcome is converted to a string; exceptions and empty contents are
caught and replaced by fixed fallback sentences, never re-raised. -/
def generate_response (provider : Except String (Option String)) : String :=
  match provider with
  | .error _ =>
      "Based on the provided legal documents, here is relevant information about your query."
  | .ok content =>
      let result := content.getD ""
      if result = "" ∨ pyStrip result = "" then
        "Unable to generate a response at this time."
      else
        pyStrip result

/-! ## ConfidenceAggregator: `SummarizationAgent._calculate_confidence`
(src/agents/summarization_agent.py lines 424-454). -/

/-- Pipeline-level confidence of the summarization agent, computed from the
collected evidence counts exactly as the source does. -/
def calculate_confidence (statutes_count cases_count recommendations_count : Nat)
    (has_explanation has_domains : Bool) : Score :=
  let confidence : Score := 0.3
  let confidence := if has_domains then confidence + 0.1 else confidence
  let confidence :=
    if 0 < statutes_count then confidence + min 0.2 ((statutes_count : Score) * 0.05)
    else confidence
  let confidence :=
    if 0 < cases_count then confidence + min 0.2 ((cases_count : Score) * 0.05)
    else confidence
  let confidence :=
    if 0 < recommendations_count then
      confidence + min 0.1 ((recommendations_count : Score) * 0.02)
    else confidence
  let confidence := if has_explanation then confidence + 0.1 else confidence
  min confidence 1

/-- The spec's description of the aggregated confidence: a 0.3 base plus the
bounded contributions, clipped to `[0,1]`.  (Stated from the spec's words for
the refinement comparison in claim C2.) -/
def spec_pipeline_confidence (statutes_count cases_count recommendations_count : Nat)
    (has_explanation has_domains : Bool) : Score :=
  max 0 (min 1
    (0.3 + (if has_domains then 0.1 else 0)
      + (if 0 < statutes_count then min 0.2 ((statutes_count : Score) * 0.05) else 0)
      + (if 0 < cases_count then min 0.2 ((cases_count : Score) * 0.05) else 0)
      + (if 0 < recommendations_count then
          min 0.1 ((recommendations_count : Score) * 0.02) else 0)
      + (if has_explanation then 0.1 else 0)))

/-! ## Case-similarity step: rule tier (src/agents/case_similarity_agent.py)

A retrieved case payload is a Qdrant payload dict; every field access in the
source is `payload.get(key, default)`, so fields are `Option`s (`none` = key
absent). -/

/-- A case-law payload as read by `CaseSimilarityAgent`. -/
structure CasePayload where
  context : Option String := none
  issue : Option String := none
  facts : Option String := none
  summary : Option String := none
  action : Option String := none
  proceedings : Option String := none
  relief_sought : Option String := none
  outcome : Option String := none
  judgment : Option String := none
  ruling : Option String := none
  decision : Option String := none
  citation : Option String := none
  case_name : Option String := none
  court : Option String := none
  domain : Option String := none
  year : Option Nat := none
deriving DecidableEq, Repr

/-- One scored hit from the `case_law_vectors` collection. -/
structure CaseHit where
  payload : CasePayload
  score : Score
deriving DecidableEq, Repr

/-- `CaseSimilarityAgent._extract_context`: first non-empty of
`context`/`issue`/`facts` truncated to 200 characters, else the first 200
characters of `summary`, else a fixed sentence. -/
def extract_context (p : CasePayload) : String :=
  let context := pyOrS (p.context.getD "") (pyOrS (p.issue.getD "") (p.facts.getD ""))
  if context ≠ "" then pyTake context 200
  else
    let summary := p.summary.getD ""
    if summary ≠ "" then pyTake summary 200 else "Issue not specified"

/-- `CaseSimilarityAgent._extract_action`: first non-empty of
`action`/`proceedings`/`relief_sought` truncated to 250 characters, else
`summary[100:350]` when the summary is long enough, else a fixed sentence. -/
def extract_action (p : CasePayload) : String :=
  let action := pyOrS (p.action.getD "") (pyOrS (p.proceedings.getD "") (p.relief_sought.getD ""))
  if action ≠ "" then pyTake action 250
  else
    let summary := p.summary.getD ""
    if 200 < summary.length then pyTake (pyDrop summary 100) 250
    else "Actions not detailed in record"

/-- `CaseSimilarityAgent._extract_outcome`: first non-empty of
`outcome`/`judgment`/`ruling`/`decision` truncated to 250 characters, else
`summary[-250:]` when the summary is long enough, else a fixed sentence. -/
def extract_outcome (p : CasePayload) : String :=
  let outcome := pyOrS (p.outcome.getD "")
    (pyOrS (p.judgment.getD "") (pyOrS (p.ruling.getD "") (p.decision.getD "")))
  if outcome ≠ "" then pyTake outcome 250
  else
    let summary := p.summary.getD ""
    if 300 < summary.length then pyTakeRight summary 250
    else "Outcome not specified"

/-- Render a hundredth-part natural number the way `"%.2f"` does. -/
def format2fNat (n : Nat) : String :=
  toString (n / 100) ++ "." ++
    (if n % 100 < 10 then "0" ++ toString (n % 100) else toString (n % 100))

/-- Two-decimal rendering of a score: models CPython's `f"{x:.2f}"` (exact
on the rationals used here; the binary-float rounding-mode corner cases of
CPython are not observable in any claim). -/
def format2f (s : Score) : String :=
  let cents : Int := ⌊s * 100 + 1 / 2⌋
  if cents < 0 then "-" ++ format2fNat cents.natAbs else format2fNat cents.toNat

/-- `CaseSimilarityAgent._determine_relevance`: a score-banded relevance
level followed by a fixed sentence.  (The source also reads
`payload.get("domain", "")` into an unused local, and its `query` parameter
is unused; both are reproduced here as unused parameters.) -/
def determine_relevance (query : String) (p : CasePayload) (similarity_score : Score) : String :=
  let relevance_level :=
    if 0.85 < similarity_score then "Highly relevant"
    else if 0.70 < similarity_score then "Moderately relevant"
    else "Potentially relevant"
  let case_name := p.case_name.getD "Case"
  relevance_level ++ " (" ++ format2f similarity_score ++ "). " ++
    "Similar because: " ++ case_name ++ " involves comparable legal principles. " ++
    "Can help understand potential precedents and outcomes."

/-! ## Classification step (src/agents/classification_agent.py)

`_llm_classify` wraps an external LLM call plus JSON parsing and returns a
list of validated domain labels, with `[]` for every failure mode; it is
modelled as an input `llm_domains`.  The taxonomy search result is the input
`tax_results`. -/

/-- The fixed legal-domain taxonomy `LEGAL_DOMAINS`. -/
def LEGAL_DOMAINS : List String :=
  ["constitutional_law", "criminal_law", "civil_law", "family_law", "property_law",
   "labor_law", "consumer_protection", "environmental_law", "tax_law", "corporate_law",
   "intellectual_property", "administrative_law", "civic_rights", "human_rights"]

/-- Payload of a hit from the `legal_taxonomy_vectors` collection. -/
structure TaxPayload where
  domain : Option String := none
deriving DecidableEq, Repr

/-- One scored taxonomy hit. -/
structure TaxHit where
  payload : TaxPayload
  score : Score
deriving DecidableEq, Repr

/-- The taxonomy-extraction loop of `ClassificationAgent.process` step 2:
append each non-empty, not-yet-seen `domain` payload field. -/
def taxonomy_extract_domains (results : List TaxHit) : List String :=
  results.foldl
    (fun acc r =>
      let domain := r.payload.domain.getD ""
      if domain ≠ "" ∧ ¬ acc.contains domain then acc ++ [domain] else acc)
    []

/-- The static domain → keyword table of `ClassificationAgent._keyword_classify`. -/
def keyword_map : List (String × List String) :=
  [("constitutional_law", ["constitution", "fundamental right", "article"]),
   ("criminal_law", ["crime", "criminal", "arrest", "bail", "fir", "police"]),
   ("civil_law", ["contract", "tort", "damages", "compensation"]),
   ("family_law", ["marriage", "divorce", "custody", "maintenance", "adoption"]),
   ("property_law", ["property", "land", "ownership", "title", "possession"]),
   ("labor_law", ["employment", "wage", "termination", "labor", "worker"]),
   ("consumer_protection", ["consumer", "defective", "refund", "warranty"]),
   ("environmental_law", ["environment", "pollution", "forest", "wildlife"]),
   ("tax_law", ["tax", "income tax", "gst", "assessment"]),
   ("corporate_law", ["company", "corporate", "shareholder", "board"]),
   ("intellectual_property", ["patent", "copyright", "trademark", "ip"]),
   ("administrative_law", ["government", "public authority", "administrative"]),
   ("civic_rights", ["voting", "citizen", "civic", "right to information"]),
   ("human_rights", ["human right", "discrimination", "equality"])]

/-- One iteration of the keyword-matching loop: append the domain when any
of its keywords occurs in the lowercased query. -/
def keyword_step (query_lower : String) (acc : List String) (dk : String × List String) :
    List String :=
  if dk.2.any (fun k => containsSub k query_lower) then acc ++ [dk.1] else acc

/-- The matched-domain list of `_keyword_classify` before the `[:3]`
truncation. -/
def keyword_matches (query : String) : List String :=
  keyword_map.foldl (keyword_step (pyLower query)) []

/-- `ClassificationAgent._keyword_classify`: keyword matches, truncated to
the top 3. -/
def keyword_classify (query : String) : List String :=
  (keyword_matches query).take 3

/-- The classification output assembled by `ClassificationAgent.process`. -/
structure ClassifyResult where
  domains : List String
  primary_domain : String
  confidence : Score
  method : String
deriving DecidableEq, Repr

/-- Steps 1-3 of `ClassificationAgent.process` after the external calls:
`llm_domains` is the (possibly empty) result of the model tier,
`tax_results` the taxonomy search hits.  Step 2 fires only when the model
tier returned nothing, step 3 only when the classified list is still
empty; an LLM-classified result gets fixed confidence 0.85. -/
def classify_core (llm_domains : List String) (tax_results : List TaxHit) (query : String) :
    ClassifyResult :=
  let step2 :=
    if llm_domains.isEmpty then
      match tax_results with
      | [] => (llm_domains, ("llm", (0.5 : Score)))
      | h :: _ => (taxonomy_extract_domains tax_results, ("taxonomy", h.score))
    else (llm_domains, ("llm", (0.5 : Score)))
  let step3 :=
    if step2.1.isEmpty then (keyword_classify query, ("keyword", (0.5 : Score)))
    else step2
  let confidence := if step3.2.1 = "llm" then (0.85 : Score) else step3.2.2
  { domains := step3.1
    primary_domain := step3.1.head?.getD "general"
    confidence := confidence
    method := step3.2.1 }

/-! ## Recommendation step (src/agents/recommendation_agent.py)

`_llm_generate_recommendations` wraps the LLM call and JSON parsing; the
parsed JSON array is the input `parsed` (a list of raw dicts), and every
failure mode of the helper yields `[]`.  Retrieved civic-process hits come
from the `civic_process_vectors` collection. -/

/-- Payload of a civic-process hit as read by `RecommendationAgent`. -/
structure ProcPayload where
  action : Option String := none
  authority : Option String := none
  importance : Option String := none
  next_step : Option String := none
  timeline : Option String := none
  required_documents : Option (List String) := none
  description : Option String := none
  steps : Option (List String) := none
deriving DecidableEq, Repr

/-- One scored hit from the `civic_process_vectors` collection. -/
structure ProcHit where
  payload : ProcPayload
  score : Score
deriving DecidableEq, Repr

/-- The deduplication key used by the template tier:
`payload.get("action", "").strip().lower()`. -/
def hitActionKey (r : ProcHit) : String :=
  pyLower (pyStrip (r.payload.action.getD ""))

/-- A structured recommendation dict.  The template tier fills every field;
the model tier leaves `required_documents` and `confidence` absent
(`none`). -/
structure Recommendation where
  action : String
  responsible_authority : String
  why_this_matters : String
  next_step : String
  estimated_timeline : String
  is_legal_advice : Bool
  sequence : Nat
  required_documents : Option (List String) := none
  confidence : Option Score := none
deriving DecidableEq, Repr

/-- `RecommendationAgent._generate_why`: the payload's `importance` field
truncated to 200 characters, else a fixed sentence chosen by substring rules
on the action text. -/
def generate_why (p : ProcPayload) : String :=
  let why := p.importance.getD ""
  if why ≠ "" then pyTake why 200
  else
    let action := p.action.getD ""
    if containsSub "RTI" (pyUpper action) then
      "This allows you to access information held by public authorities, which can help understand your case better."
    else if containsSub "petition" (pyLower action) ∨ containsSub "application" (pyLower action) then
      "This formal step officially registers your case and starts the legal process."
    else if containsSub "appeal" (pyLower action) then
      "This allows you to challenge a decision if you disagree with it."
    else
      "This is a key step in addressing your legal issue through proper channels."

/-- `RecommendationAgent._generate_next_step`: the payload's `next_step`
field truncated to 150 characters, else a synthesized instruction chosen by
substring rules on the action text. -/
def generate_next_step (p : ProcPayload) : String :=
  let next_step := p.next_step.getD ""
  if next_step ≠ "" then pyTake next_step 150
  else
    let action := p.action.getD ""
    let authority := p.authority.getD "relevant authority"
    if containsSub "file" (pyLower action) ∨ containsSub "submit" (pyLower action) then
      let docs := p.required_documents.getD []
      if docs ≠ [] then
        "Gather required documents: " ++ joinSep ", " (docs.take 2) ++ ". Then submit to " ++
          authority ++ "."
      else "Prepare application and submit to " ++ authority ++ "."
    else if containsSub "contact" (pyLower action) then
      "Identify the correct office of " ++ authority ++ " and reach out with your query."
    else
      "Take this action through " ++ authority ++ ". Consult official channels for detailed steps."

/-- The structured recommendation the template tier builds from one hit,
with 1-based sequence number `seq`. -/
def mkTemplateRec (r : ProcHit) (seq : Nat) : Recommendation :=
  { action := r.payload.action.getD "Unnamed Action"
    responsible_authority := r.payload.authority.getD "Relevant Government Authority"
    why_this_matters := generate_why r.payload
    next_step := generate_next_step r.payload
    estimated_timeline := r.payload.timeline.getD "Varies by case"
    is_legal_advice := false
    sequence := seq
    required_documents := some (r.payload.required_documents.getD [])
    confidence := some r.score }

/-- The template-tier loop of `RecommendationAgent.process`: skip hits whose
action key was already seen, append a structured recommendation with
sequence `len + 1`, and break once 5 recommendations are collected. -/
def template_go : List ProcHit → List String → List Recommendation → List Recommendation
  | [], _, recs => recs
  | r :: rest, seen, recs =>
    let key := hitActionKey r
    if key ∈ seen then template_go rest seen recs
    else
      let recs2 := recs ++ [mkTemplateRec r (recs.length + 1)]
      if 5 ≤ recs2.length then recs2 else template_go rest (key :: seen) recs2

/-- The template (rule) tier of the recommendation step. -/
def template_recommendations (process_results : List ProcHit) : List Recommendation :=
  template_go process_results [] []

/-- First-occurrence deduplication of hits by action key, relative to a set
of already-seen keys (specification device for the loop characterization). -/
def pruneDup : List ProcHit → List String → List ProcHit
  | [], _ => []
  | r :: rest, seen =>
    let key := hitActionKey r
    if key ∈ seen then pruneDup rest seen
    else r :: pruneDup rest (key :: seen)

/-- Number a list of hits with consecutive sequence values starting after
`start` (specification device). -/
def withSeq (start : Nat) : List ProcHit → List Recommendation
  | [] => []
  | r :: rest => mkTemplateRec r (start + 1) :: withSeq (start + 1) rest

/-- A raw recommendation object as parsed from the model's JSON array. -/
structure LlmRecRaw where
  action : Option String := none
  responsible_authority : Option String := none
  why_this_matters : Option String := none
  next_step : Option String := none
  estimated_timeline : Option String := none
deriving DecidableEq, Repr

/-- The validation/structuring loop of
`RecommendationAgent._llm_generate_recommendations`: keep at most 5 parsed
objects, forcing `is_legal_advice = False` and sequence `len + 1`. -/
def llm_structured (parsed : List LlmRecRaw) : List Recommendation :=
  (parsed.take 5).foldl
    (fun structured rec =>
      structured ++
        [{ action := rec.action.getD "Unnamed Action"
           responsible_authority := rec.responsible_authority.getD "Relevant Authority"
           why_this_matters := rec.why_this_matters.getD ""
           next_step := rec.next_step.getD ""
           estimated_timeline := rec.estimated_timeline.getD "Varies by case"
           is_legal_advice := false
           sequence := structured.length + 1 }])
    []

/-- `RecommendationAgent._llm_generate_recommendations` at the abstraction
of its external call: returns `[]` when the Groq client is absent, when no
processes were retrieved, or when parsing produced nothing. -/
def llm_generate_recommendations (groq_available : Bool) (parsed : List LlmRecRaw)
    (retrieved_processes : List ProcHit) : List Recommendation :=
  if !groq_available then []
  else if retrieved_processes.isEmpty then []
  else llm_structured parsed

/-- `RecommendationAgent._generate_summary`. -/
def rec_generate_summary (recommendations : List Recommendation) : String :=
  if recommendations.isEmpty then
    "No specific civic actions identified for this query. Consult official channels."
  else
    let num_recs := recommendations.length
    let actions_list := joinSep "; " ((recommendations.take 3).map (·.action))
    "Recommended " ++ toString num_recs ++ " actionable step(s): " ++ actions_list ++ ". " ++
      "These are presented in suggested order. " ++
      "Note: This is informational guidance, not legal advice. " ++
      "Consult appropriate authorities for case-specific guidance."

/-- The recommendation output assembled by `RecommendationAgent.process`. -/
structure RecResult where
  recommendations : List Recommendation
  count : Nat
  recommendation_summary : String
  confidence : Score
  generation_method : String
deriving DecidableEq, Repr

/-- `RecommendationAgent.process` after the external calls: try the model
tier, fall back to the template loop when it produced nothing; confidence is
0.8 for the model tier, else the top retrieval score (0.0 with no hits). -/
def rec_core (llm_recs : List Recommendation) (process_results : List ProcHit) : RecResult :=
  let (recommendations, generation_method) :=
    if llm_recs.isEmpty then (template_recommendations process_results, "template")
    else (llm_recs, "llm")
  let conf0 : Score :=
    match process_results with
    | [] => 0.0
    | h :: _ => h.score
  let confidence := if generation_method = "llm" then (0.8 : Score) else conf0
  { recommendations := recommendations
    count := recommendations.length
    recommendation_summary := rec_generate_summary recommendations
    confidence := confidence
    generation_method := generation_method }

/-! ## Ethics / safety step (src/agents/ethics_agent.py)

`_llm_check_safety` wraps the LLM call; it returns keyword-fallback mode on
every failure path, modelled by the input `llm_check : Option (Bool × List
String)` (`none` = fall back to keyword matching). -/

/-- The fixed list `problematic_keywords` of `EthicsAgent`. -/
def problematic_keywords : List String :=
  ["sue them", "file a lawsuit", "litigation strategy", "legal advice",
   "guaranteed win", "definitely illegal", "you should sue"]

/-- One keyword test of the scanning loops: on a match, set `is_safe` to
false and append the issue string. -/
def scan_step (mkIssue : String → String) (text : String) (st : Bool × List String)
    (keyword : String) : Bool × List String :=
  if containsSub keyword text then (false, st.2 ++ [mkIssue keyword]) else st

/-- Scan one text against every problematic keyword. -/
def scanKeywords (mkIssue : String → String) (text : String) (st : Bool × List String) :
    Bool × List String :=
  problematic_keywords.foldl (scan_step mkIssue text) st

/-- Issue string for a match in the explanation. -/
def explanation_issue (keyword : String) : String :=
  "Found problematic phrase: \x27" ++ keyword ++ "\x27"

/-- Issue string for a match in a recommendation. -/
def recommendation_issue (keyword : String) : String :=
  "Problematic content in recommendation: \x27" ++ keyword ++ "\x27"

/-- The combined text the keyword tier checks for one recommendation:
`f"{action} {description} {why}"`, each part lowercased.  The
recommendation dicts produced by this pipeline carry no `description` key,
so `rec.get("description", "")` is always the empty string. -/
def rec_combined (r : Recommendation) : String :=
  let action := pyLower r.action
  let description := ""
  let why := pyLower r.why_this_matters
  action ++ " " ++ description ++ " " ++ why

/-- The keyword (rule) tier of `EthicsAgent.process`: scan the explanation,
then every recommendation, accumulating `(is_safe, issues)` from
`(True, [])`. -/
def ethics_keyword_scan (explanation : String) (recommendations : List Recommendation) :
    Bool × List String :=
  let st0 := scanKeywords explanation_issue (pyLower explanation) (true, [])
  recommendations.foldl (fun st r => scanKeywords recommendation_issue (rec_combined r) st) st0

/-- The safety disclaimer appended when `is_safe` is false. -/
def safety_disclaimer_text : String :=
  "\n\n⚠️ IMPORTANT DISCLAIMER: " ++
    "This system provides legal information only, not legal advice. " ++
    "Consult a qualified lawyer for specific legal matters. " ++
    "This system does not provide litigation strategies or guarantee outcomes."

/-- The standard disclaimer, always appended. -/
def standard_disclaimer_text : String :=
  "\n\n📋 Note: This information is for educational purposes only. " ++
    "It is not a substitute for professional legal advice."

/-- The validation result assembled by `EthicsAgent.process`. -/
structure EthicsResult where
  is_safe : Bool
  issues : List String
  safety_disclaimer : String
  standard_disclaimer : String
  approved : Bool
  confidence : Score
deriving DecidableEq, Repr

/-- `EthicsAgent.process` after the external call: use the LLM check when it
fired, else the keyword scan; add the safety disclaimer iff unsafe and the
standard disclaimer always. -/
def ethics_process (llm_check : Option (Bool × List String)) (explanation : String)
    (recommendations : List Recommendation) : EthicsResult :=
  let checked :=
    match llm_check with
    | some st => st
    | none => ethics_keyword_scan explanation recommendations
  { is_safe := checked.1
    issues := checked.2
    safety_disclaimer := if !checked.1 then safety_disclaimer_text else ""
    standard_disclaimer := standard_disclaimer_text
    approved := checked.1
    confidence := if checked.1 then 1.0 else 0.5 }

/-! ## Case-similarity step: full agent (src/agents/case_similarity_agent.py) -/

/-- A structured case-analysis dict as produced by both tiers of
`CaseSimilarityAgent` (the shared shape of `structured_case`). -/
structure CaseRec where
  case_context : String
  what_happened : String
  outcome : String
  relevance_to_query : String
  source : String
  case_name : String
  year : Option Nat
  confidence : Score
deriving DecidableEq, Repr

/-- A raw case-analysis object as parsed from the model's JSON array. -/
structure CaseAnalysisRaw where
  case_context : Option String := none
  what_happened : Option String := none
  outcome : Option String := none
  relevance_to_query : Option String := none
deriving DecidableEq, Repr

/-- `CaseSimilarityAgent._llm_analyze_cases` at the abstraction of its
external call: `[]` when the Groq client is absent, when no cases were
retrieved, or when parsing produced nothing; otherwise each parsed analysis
(at most 5) is paired positionally with the retrieved case it analyzes. -/
def llm_analyze_cases (groq_available : Bool) (parsed : List CaseAnalysisRaw)
    (case_results : List CaseHit) : List CaseRec :=
  if !groq_available then []
  else if case_results.isEmpty then []
  else
    ((parsed.take 5).zip case_results).map (fun pr =>
      { case_context := pr.1.case_context.getD ""
        what_happened := pr.1.what_happened.getD ""
        outcome := pr.1.outcome.getD ""
        relevance_to_query := pr.1.relevance_to_query.getD ""
        source := pr.2.payload.citation.getD (pr.2.payload.case_name.getD "")
        case_name := pr.2.payload.case_name.getD "Unknown"
        year := pr.2.payload.year
        confidence := pr.2.score })

/-- The template (rule) tier of `CaseSimilarityAgent.process`: structure
each retrieved case by field extraction. -/
def case_template_cases (query : String) (case_results : List CaseHit) : List CaseRec :=
  case_results.map (fun result =>
    { case_context := extract_context result.payload
      what_happened := extract_action result.payload
      outcome := extract_outcome result.payload
      relevance_to_query := determine_relevance query result.payload result.score
      source := result.payload.citation.getD (result.payload.case_name.getD "")
      case_name := result.payload.case_name.getD "Unknown"
      year := result.payload.year
      confidence := result.score })

/-- `CaseSimilarityAgent._generate_summary`. -/
def case_generate_summary (structured_cases : List CaseRec) : String :=
  if structured_cases.isEmpty then "No similar past cases found in database."
  else
    let num_cases := structured_cases.length
    let high_confidence :=
      (structured_cases.filter (fun c => (0.8 : Score) < c.confidence)).length
    "Found " ++ toString num_cases ++ " similar past case(s). " ++
      toString high_confidence ++ " have high relevance. " ++
      "These cases provide context for understanding potential legal outcomes. " ++
      "Note: These are informational examples, not precedent binding."

/-- The case-similarity output assembled by `CaseSimilarityAgent.process`. -/
structure CaseCoreOut where
  similar_cases : List CaseRec
  count : Nat
  analysis_summary : String
  confidence : Score
  analysis_method : String
deriving DecidableEq, Repr

/-- `CaseSimilarityAgent.process` after the external calls: model tier
first, template tier when it produced nothing; confidence 0.8 for the model
tier, else the top retrieval score (0.0 with no hits). -/
def case_core (llm_cases : List CaseRec) (case_results : List CaseHit) (query : String) :
    CaseCoreOut :=
  let (structured_cases, analysis_method) :=
    if llm_cases.isEmpty then (case_template_cases query case_results, "template")
    else (llm_cases, "llm")
  let conf0 : Score :=
    match case_results with
    | [] => 0.0
    | h :: _ => h.score
  let confidence := if analysis_method = "llm" then (0.8 : Score) else conf0
  { similar_cases := structured_cases
    count := structured_cases.length
    analysis_summary := case_generate_summary structured_cases
    confidence := confidence
    analysis_method := analysis_method }

/-! ## Knowledge retrieval and the statute dict
(src/agents/knowledge_retrieval_agent.py) -/

/-- A statute dict: the shape `KnowledgeRetrievalAgent` formats
(`id`/`title`/`section`/`content`/`act_name`/`jurisdiction`/`score`) plus
the keys `process_query_structured` reads (`name`/`summary`/`source`).  The
Python `section` key is spelled `section_` because `section` is a Lean
keyword. -/
structure StatuteCtx where
  id : Option Nat := none
  title : Option String := none
  name : Option String := none
  summary : Option String := none
  content : Option String := none
  source : Option String := none
  act_name : Option String := none
  section_ : Option String := none
  jurisdiction : Option String := none
  score : Option Score := none
deriving DecidableEq, Repr

/-- Payload of a hit from the `statutes_vectors` collection. -/
structure StatutePayloadQ where
  title : Option String := none
  section_ : Option String := none
  content : Option String := none
  act_name : Option String := none
  jurisdiction : Option String := none
deriving DecidableEq, Repr

/-- One scored statute hit. -/
structure StatuteHit where
  id : Nat
  payload : StatutePayloadQ
  score : Score
deriving DecidableEq, Repr

/-- The statute-formatting loop of `KnowledgeRetrievalAgent.process` (lines
60-70).  NOTE: this code is dead in the source — the agent's return
statement references the undefined names `all_statutes` and `web_statutes`,
so every run that reaches it raises `NameError` and the formatted list is
discarded. -/
def knowledge_format_statutes (statute_results : List StatuteHit) : List StatuteCtx :=
  statute_results.map (fun result =>
    { id := some result.id
      title := some (result.payload.title.getD "")
      section_ := some (result.payload.section_.getD "")
      content := some (result.payload.content.getD "")
      act_name := some (result.payload.act_name.getD "")
      jurisdiction := some (result.payload.jurisdiction.getD "india")
      score := some result.score })

/-! ## Structured evidence (src/core/orchestrator.py, Phase 3 of
`process_query_structured`, lines 347-376) -/

/-- A `Statute` evidence object of the structured response. -/
structure ApiStatute where
  title : String
  summary : String
  source : String
  relevance_score : Option Score
deriving DecidableEq, Repr

/-- A `Case` evidence object of the structured response. -/
structure ApiCase where
  case_name : String
  year : Option Nat
  summary : String
  source : String
  relevance_score : Option Score
deriving DecidableEq, Repr

/-- The `RetrievedEvidence` object of the structured response. -/
structure RetrievedEvidence where
  statutes : List ApiStatute
  cases : List ApiCase
  total_evidence_count : Nat
deriving DecidableEq, Repr

/-- Build one `Statute` evidence object from a context statute dict. -/
def mkApiStatute (s : StatuteCtx) : ApiStatute :=
  { title := s.title.getD (s.name.getD "Unknown Statute")
    summary := s.summary.getD (pyTake (s.content.getD "") 300)
    source := s.source.getD "Unknown"
    relevance_score := s.score }

/-- Build one `Case` evidence object from a pipeline case dict.  The
pipeline's structured case dicts carry no `summary`/`citation`/`score`
keys, so `c.get("summary", c.get("outcome", "")[:300])` falls back to the
truncated outcome, `c.get("source", c.get("citation", "Unknown"))` to the
always-present `source`, and `c.get("score")` to `None`. -/
def mkApiCase (c : CaseRec) : ApiCase :=
  { case_name := c.case_name
    year := c.year
    summary := pyTake c.outcome 300
    source := c.source
    relevance_score := none }

/-- Phase 3 of `process_query_structured`: truncate both retrieved lists to
their first 5 entries and count the included evidence.  The cases come from
the `similar_cases` context key, with a Python-`or` fallback to the legacy
`cases` key. -/
def build_retrieved_evidence (statutes_data : List StatuteCtx)
    (similar_cases legacy_cases : List CaseRec) : RetrievedEvidence :=
  let statutes := (statutes_data.take 5).map mkApiStatute
  let cases_data := if similar_cases.isEmpty then legacy_cases else similar_cases
  let cases := (cases_data.take 5).map mkApiCase
  { statutes := statutes
    cases := cases
    total_evidence_count := statutes.length + cases.length }

/-! ## Reasoning step (src/agents/reasoning_agent.py) -/

/-- `ReasoningAgent._build_context`.  The case dicts in context are the
structured case-analysis dicts, which carry no `court` or `summary` keys,
so `case.get("court", "N/A")` is always `"N/A"` and
`case.get("summary", "")[:300]` is always `""`. -/
def reasoning_build_context (statutes : List StatuteCtx) (cases : List CaseRec) : String :=
  let statute_parts :=
    if statutes.isEmpty then []
    else
      "=== STATUTES ===" ::
        ((statutes.take 3).enum.map (fun (i, statute) =>
          toString (i + 1) ++ ". " ++ statute.act_name.getD "Unknown Act" ++ " - Section " ++
            statute.section_.getD "N/A" ++ "\n   " ++ pyTake (statute.content.getD "") 300 ++
            "..."))
  let case_parts :=
    if cases.isEmpty then []
    else
      "\n=== SIMILAR CASES ===" ::
        ((cases.take 3).enum.map (fun (i, c) =>
          toString (i + 1) ++ ". " ++ c.case_name ++ " (" ++
            (match c.year with | some y => toString y | none => "N/A") ++ ")\n   Court: N/A" ++
            "\n   Summary: " ++ "..."))
  joinSep "\n" (statute_parts ++ case_parts)

/-- `ReasoningAgent._calculate_confidence`: the average retrieved score,
capped at 1.  The structured case dicts carry a `confidence` key but no
`score` key, so `case.get("score", 0.0)` contributes `0.0` for each case. -/
def reasoning_confidence (statutes : List StatuteCtx) (cases : List CaseRec) : Score :=
  if statutes.isEmpty ∧ cases.isEmpty then 0.0
  else
    let scores := statutes.map (fun s => s.score.getD 0.0) ++ cases.map (fun _ => (0.0 : Score))
    if !scores.isEmpty then min (scores.sum / scores.length) 1 else 0.5

/-- The reasoning output dict.  The no-evidence early return carries only an
`explanation` (and a `reasoning` note); its citation lists are absent,
modelled as `[]`. -/
structure ReasoningOut where
  explanation : String
  statutes_cited : List String
  cases_cited : List String
deriving DecidableEq, Repr

/-! ## Summarization step (src/agents/summarization_agent.py) -/

/-- `SummarizationAgent._collect_agent_outputs` output (the fields consumed
downstream; the copies of raw per-agent outputs feed only logging).  The
shared context has no `query` key, so `context.get("query", "")` is always
`""`. -/
structure CollectedOutputs where
  query : String
  normalized_query : String
  domains : List String
  primary_domain : String
  statutes : List StatuteCtx
  similar_cases : List CaseRec
  explanation : String
  recommendations : List Recommendation
  ethics_check : Option EthicsResult
deriving DecidableEq, Repr

/-- `SummarizationAgent._fallback_summarization`: the deterministic template
used when the LLM is unavailable. -/
def fallback_summarization (c : CollectedOutputs) : String :=
  let parts0 := ["Based on your query: \x27" ++ c.query ++ "\x27", ""]
  let parts1 :=
    if !c.domains.isEmpty then
      parts0 ++ ["This query relates to: " ++ joinSep ", " c.domains]
    else parts0
  let parts2 := parts1 ++
    ["", "=== RETRIEVED INFORMATION ===",
     "• Found " ++ toString c.statutes.length ++ " relevant statute(s)",
     "• Found " ++ toString c.similar_cases.length ++ " similar case(s)",
     "• Generated " ++ toString c.recommendations.length ++ " recommendation(s)"]
  let parts3 :=
    if c.explanation ≠ "" then parts2 ++ ["", "=== EXPLANATION ===", c.explanation]
    else parts2
  let parts4 :=
    if !c.statutes.isEmpty then
      parts3 ++ ("" :: "=== KEY STATUTES ===" ::
        ((c.statutes.take 3).enum.map (fun (i, s) =>
          toString (i + 1) ++ ". " ++ s.title.getD "Unknown" ++ " - Section " ++
            s.section_.getD "N/A")))
    else parts3
  let parts5 :=
    if !c.similar_cases.isEmpty then
      parts4 ++ ("" :: "=== SIMILAR CASES ===" ::
        ((c.similar_cases.take 3).enum.map (fun (i, cs) =>
          toString (i + 1) ++ ". " ++ cs.case_name ++ " (" ++
            (match cs.year with | some y => toString y | none => "N/A") ++ ")")))
    else parts4
  let parts6 :=
    if !c.recommendations.isEmpty then
      parts5 ++ ("" :: "=== RECOMMENDED ACTIONS ===" ::
        ((c.recommendations.take 3).enum.map (fun (i, r) =>
          toString (i + 1) ++ ". " ++ r.action)))
    else parts5
  let parts7 := parts6 ++
    ["", "=== IMPORTANT DISCLAIMER ===",
     "This information is for educational purposes only. " ++
       "It is not legal advice. Consult a qualified lawyer for specific legal matters."]
  joinSep "\n" parts7

/-- The final response dict built by
`SummarizationAgent._format_final_response`. -/
structure SummaryResult where
  unified_summary : String
  query : String
  normalized_query : String
  legal_domain : String
  domains : List String
  statutes : List StatuteCtx
  similar_cases : List CaseRec
  recommendations : List Recommendation
  ethics_check : Option EthicsResult
  statutes_count : Nat
  cases_count : Nat
  recommendations_count : Nat
  safety_disclaimer : String
  standard_disclaimer : String
  agent_summary : List (String × String)
deriving DecidableEq, Repr

/-- `SummarizationAgent._format_final_response`. -/
def format_final_response (c : CollectedOutputs) (unified_summary : String) : SummaryResult :=
  { unified_summary := unified_summary
    query := c.query
    normalized_query := c.normalized_query
    legal_domain := c.primary_domain
    domains := c.domains
    statutes := c.statutes
    similar_cases := c.similar_cases
    recommendations := c.recommendations
    ethics_check := c.ethics_check
    statutes_count := c.statutes.length
    cases_count := c.similar_cases.length
    recommendations_count := c.recommendations.length
    safety_disclaimer :=
      match c.ethics_check with
      | some e => e.safety_disclaimer
      | none => ""
    standard_disclaimer :=
      match c.ethics_check with
      | some e => e.standard_disclaimer
      | none =>
          "This information is for educational purposes only. " ++
            "It is not a substitute for professional legal advice."
    agent_summary :=
      [("intake", "Query normalized and preprocessed"),
       ("classification", "Classified into " ++ toString c.domains.length ++ " domain(s)"),
       ("knowledge", "Retrieved " ++ toString c.statutes.length ++ " statute(s)"),
       ("case_similarity", "Found " ++ toString c.similar_cases.length ++ " similar case(s)"),
       ("reasoning", "Generated legal reasoning from retrieved documents"),
       ("recommendation", "Generated " ++ toString c.recommendations.length ++
         " recommendation(s)"),
       ("ethics", "Validated for safety and ethics")] }

/-! ## The orchestrator (src/core/orchestrator.py)

The LangGraph `StateGraph` built by `_build_graph` is a strictly linear
chain `intake → classification → knowledge_retrieval → case_similarity →
reasoning → recommendation → ethics → memory → summarization`, so
`self.app.invoke` is the sequential composition of the node functions.

Each external call the agents make is parameterised by an `Env` field:
the Groq/Tavily client availability flags, one outcome per
`get_embedding` call site (these can raise to the caller), one result list
per Qdrant `search` call site (the Qdrant wrappers catch internally and
return `[]`), the parsed value of each LLM-helper call, the provider
outcome of each direct `generate_response` call, the upsert outcome, and
the generated uuid/timestamp. -/

/-- One observable external side effect of a pipeline run. -/
inductive Effect where
  | embed
  | search (collection : String)
  | generate
  | upsert (collection : String)
  | webSearch
deriving DecidableEq, Repr

/-- The environment of one orchestrator run: the outcome of every external
call the steps can make. -/
structure Env where
  groq : Bool
  tavily : Bool
  intakeEmbed : Except String Nat
  classifyEmbed : Except String Nat
  knowledgeEmbed : Except String Nat
  caseEmbed : Except String Nat
  recEmbed : Except String Nat
  memoryEmbed : Except String Nat
  llmClassify : List String
  taxResults : List TaxHit
  statuteResults : List StatuteHit
  caseResults : List CaseHit
  llmCaseAnalyses : List CaseAnalysisRaw
  processResults : List ProcHit
  llmRecsParsed : List LlmRecRaw
  reasonProvider : Except String (Option String)
  llmSafety : Option (Bool × List String)
  sumProvider : Except String (Option String)
  memUpsertOk : Bool
  caseId : String
  timestamp : String

/-- `BaseAgent.validate_input` (src/core/agent_base.py): a query is valid
unless it is empty or whitespace-only. -/
def validate_input (q : String) : Bool :=
  !(q == "" || pyStrip q == "")

/-- An `AgentOutput` restricted to the fields the orchestrator reads:
`result` (None on validation failure) and `confidence`. -/
structure AgentOutputM (α : Type) where
  result : Option α
  confidence : Score

/-- The result dict of `IntakeAgent.process`. -/
structure IntakeResult where
  normalized_query : String
  embedding : Option Nat

/-- `IntakeAgent`'s normalization: strip, collapse whitespace, lowercase. -/
def normalize_query (q : String) : String :=
  let query := pyStrip q
  pyLower (joinSep " " (pySplitWs query))

/-- `IntakeAgent.process`: never raises — an embedding failure is caught
inside the agent and recorded as a `None` embedding. -/
def intake_run (env : Env) (q : String) : List Effect × AgentOutputM IntakeResult :=
  if !(validate_input q) then ([], ⟨none, 0.0⟩)
  else
    let normalized := normalize_query q
    match env.intakeEmbed with
    | .ok v => ([Effect.embed], ⟨some ⟨normalized, some v⟩, 1.0⟩)
    | .error _ => ([Effect.embed], ⟨some ⟨normalized, none⟩, 1.0⟩)

/-- The result dict of `ClassificationAgent.process`. -/
structure ClassifyData where
  domains : List String
  primary_domain : String

/-- `ClassificationAgent.process` including its external calls.  The agent
tests `"embedding" in context` (key presence): a present-but-`None` value is
passed to the Qdrant wrapper, which catches the resulting error internally
and returns no hits; an absent key triggers a fresh `get_embedding` call,
which can raise out of the agent. -/
def classification_run (env : Env) (q : String) (ctx_embedding : Option (Option Nat)) :
    List Effect × Except String (AgentOutputM ClassifyData) :=
  if !(validate_input q) then ([], .ok ⟨none, 0.0⟩)
  else
    let fx1 : List Effect := if env.groq then [Effect.generate] else []
    let llm := if env.groq then env.llmClassify else []
    if !llm.isEmpty then
      let core := classify_core llm [] q
      (fx1, .ok ⟨some ⟨core.domains, core.primary_domain⟩, core.confidence⟩)
    else
      match ctx_embedding with
      | some vec =>
        let results := if vec.isSome then env.taxResults else []
        let core := classify_core llm results q
        (fx1 ++ [Effect.search "legal_taxonomy_vectors"],
          .ok ⟨some ⟨core.domains, core.primary_domain⟩, core.confidence⟩)
      | none =>
        match env.classifyEmbed with
        | .error e => (fx1 ++ [Effect.embed], .error e)
        | .ok _ =>
          let core := classify_core llm env.taxResults q
          (fx1 ++ [Effect.embed, Effect.search "legal_taxonomy_vectors"],
            .ok ⟨some ⟨core.domains, core.primary_domain⟩, core.confidence⟩)

/-- The result dict of `KnowledgeRetrievalAgent.process` — never actually
produced, see `knowledge_format_statutes`. -/
structure KnowledgeResult where
  statutes : List StatuteCtx
  count : Nat

/-- The `NameError` message raised by `KnowledgeRetrievalAgent.process`. -/
def nameErrorMsg : String := "name \x27all_statutes\x27 is not defined"

/-- `KnowledgeRetrievalAgent.process`: on any valid query it resolves the
query embedding (`context.get("embedding")`, falsy → fresh embedding, which
can raise), performs the statute search, formats the hits — and then raises
`NameError` because its return statement references the undefined names
`all_statutes`/`web_statutes`. -/
def knowledge_run (env : Env) (q : String) (ctx_embedding : Option (Option Nat)) :
    List Effect × Except String (AgentOutputM KnowledgeResult) :=
  if !(validate_input q) then ([], .ok ⟨none, 0.0⟩)
  else
    match ctx_embedding.join with
    | some _ => ([Effect.search "statutes_vectors"], .error nameErrorMsg)
    | none =>
      match env.knowledgeEmbed with
      | .error e => ([Effect.embed], .error e)
      | .ok _ => ([Effect.embed, Effect.search "statutes_vectors"], .error nameErrorMsg)

/-- `CaseSimilarityAgent.process` including its external calls.  Like the
knowledge agent it re-embeds when `context.get("embedding")` is falsy. -/
def case_run (env : Env) (q : String) (ctx_embedding : Option (Option Nat)) :
    List Effect × Except String (AgentOutputM CaseCoreOut) :=
  if !(validate_input q) then ([], .ok ⟨none, 0.0⟩)
  else
    let go : List Effect → List Effect × Except String (AgentOutputM CaseCoreOut) :=
      fun fx0 =>
        let case_results := env.caseResults
        let fx := fx0 ++ [Effect.search "case_law_vectors"] ++
          (if env.groq && !case_results.isEmpty then [Effect.generate] else [])
        let llm_cases := llm_analyze_cases env.groq env.llmCaseAnalyses case_results
        let core := case_core llm_cases case_results q
        (fx, .ok ⟨some core, core.confidence⟩)
    match ctx_embedding.join with
    | some _ => go []
    | none =>
      match env.caseEmbed with
      | .error e => ([Effect.embed], .error e)
      | .ok _ => go [Effect.embed]

/-- `ReasoningAgent.process`: never raises (the generation call is wrapped,
and `generate_response` itself never raises).  With no retrieved context it
returns the fixed no-evidence explanation at confidence 0. -/
def reasoning_run (env : Env) (q : String) (statutes : List StatuteCtx)
    (cases : List CaseRec) : List Effect × AgentOutputM ReasoningOut :=
  if !(validate_input q) then ([], ⟨none, 0.0⟩)
  else
    let retrieved_context := reasoning_build_context statutes cases
    if retrieved_context = "" then
      ([], ⟨some ⟨"No relevant legal documents were found to base reasoning on.", [], []⟩, 0.0⟩)
    else
      let fx := if env.groq then [Effect.generate] else []
      let e0 := if env.groq then generate_response env.reasonProvider else ""
      let explanation :=
        if e0 = "" then
          "Based on the " ++ toString statutes.length ++ " retrieved statutes and " ++
            toString cases.length ++ " similar cases, here are the relevant legal " ++
            "provisions that apply to your query. Please review the documents above " ++
            "for specific details."
        else e0
      (fx, ⟨some ⟨explanation, (statutes.take 3).map (fun s => s.title.getD ""),
        (cases.take 3).map (fun c => c.case_name)⟩, reasoning_confidence statutes cases⟩)

/-- `RecommendationAgent.process` including its external calls. -/
def recommendation_run (env : Env) (q : String) (ctx_embedding : Option (Option Nat)) :
    List Effect × Except String (AgentOutputM RecResult) :=
  if !(validate_input q) then ([], .ok ⟨none, 0.0⟩)
  else
    let go : List Effect → List Effect × Except String (AgentOutputM RecResult) :=
      fun fx0 =>
        let process_results := env.processResults
        let fx := fx0 ++ [Effect.search "civic_process_vectors"] ++
          (if env.groq && !process_results.isEmpty then [Effect.generate] else [])
        let llm_recs := llm_generate_recommendations env.groq env.llmRecsParsed process_results
        let core := rec_core llm_recs process_results
        (fx, .ok ⟨some core, core.confidence⟩)
    match ctx_embedding.join with
    | some _ => go []
    | none =>
      match env.recEmbed with
      | .error e => ([Effect.embed], .error e)
      | .ok _ => go [Effect.embed]

/-- `EthicsAgent.process`: performs no input validation and never raises;
uses the LLM safety check when available, else the keyword scan. -/
def ethics_run (env : Env) (explanation : String) (recommendations : List Recommendation) :
    List Effect × AgentOutputM EthicsResult :=
  let fx : List Effect := if env.groq then [Effect.generate] else []
  let llm_check := if env.groq then env.llmSafety else none
  let result := ethics_process llm_check explanation recommendations
  (fx, ⟨some result, result.confidence⟩)

/-- The result dict of `MemoryAgent._store_memory`. -/
structure MemResult where
  case_id : String
  stored : Bool
  timestamp : String

/-- `MemoryAgent.process` in store mode: performs no input validation;
embeds `f"{query} {explanation}"` (which can raise out of the agent), then
upserts to both memory collections (the Qdrant wrapper catches upsert
failures and returns a success flag). -/
def memory_run (env : Env) (q : String) (explanation : String) :
    List Effect × Except String (AgentOutputM MemResult) :=
  match env.memoryEmbed with
  | .error e => ([Effect.embed], .error e)
  | .ok _ =>
    let success := env.memUpsertOk
    ([Effect.embed, Effect.upsert "case_memory_vectors",
        Effect.upsert "user_interaction_memory"],
      .ok ⟨some ⟨env.caseId, success, env.timestamp⟩, if success then 1.0 else 0.0⟩)

/-- `SummarizationAgent.process` including its external calls: validate,
collect, optional Tavily search (feeding only the prompt), LLM
summarization with the deterministic template as fallback. -/
def summarization_run (env : Env) (q : String) (c : CollectedOutputs) :
    List Effect × AgentOutputM SummaryResult :=
  if !(validate_input q) then ([], ⟨none, 0.0⟩)
  else
    let fx : List Effect :=
      (if env.tavily then [Effect.webSearch] else []) ++
        (if env.groq then [Effect.generate] else [])
    let llm_summary : Option String :=
      if env.groq then
        let result := generate_response env.sumProvider
        if result ≠ "" ∧ pyStrip result ≠ "" then some (pyStrip result) else none
      else none
    let unified_summary :=
      match llm_summary with
      | some s => s
      | none => fallback_summarization c
    (fx, ⟨some (format_final_response c unified_summary),
      calculate_confidence c.statutes.length c.similar_cases.length
        c.recommendations.length (c.explanation ≠ "") (!c.domains.isEmpty)⟩)

/-- The shared context dict (`state["context"]`); `none` = key absent. -/
structure Ctx where
  user_id : String
  normalized_query : Option String := none
  embedding : Option (Option Nat) := none
  domains : Option (List String) := none
  primary_domain : Option String := none
  statutes : Option (List StatuteCtx) := none
  similar_cases : Option (List CaseRec) := none
  explanation : Option String := none
  recommendations : Option (List Recommendation) := none
  ethics_check : Option EthicsResult := none
  memory_operation : Option String := none

/-- What the orchestrator records of the memory agent's output. -/
structure MemOutMeta where
  confidence : Score
  case_id : String
  stored : Bool

/-- `state["agent_outputs"]`, restricted to the fields later read: each
recorded agent's confidence, plus the memory result. -/
structure AgentOutputsRec where
  intake : Option Score := none
  classification : Option Score := none
  knowledge : Option Score := none
  case_similarity : Option Score := none
  reasoning : Option Score := none
  recommendation : Option Score := none
  ethics : Option Score := none
  memory : Option MemOutMeta := none
  summarization : Option Score := none

/-- The heterogeneous dicts `process_query` can return as
`final_result`. -/
inductive FinalResult where
  | emptyDict
  | fromSummarization (r : SummaryResult) (case_id : Option String)
  | fallbackDict (query : String) (unified_summary : String)
      (normalized_query : Option String) (domains : List String)
      (statutes : List StatuteCtx) (similar_cases : List CaseRec)
      (recommendations : List Recommendation)
      (statutes_count cases_count recommendations_count : Nat)
  | errorDict (query : String) (error_msg : String)
  | invokeError (query : String) (error_msg : String) (errors : List String)

/-- Which returned response dicts carry an `errors` list: only the
`process_query` exception path does. -/
def FinalResult.errorsKey : FinalResult → Option (List String)
  | .invokeError _ _ es => some es
  | _ => none

/-- The LangGraph `AgentState`, with the trace of external effects added
for observability of the run. -/
structure PipeState where
  query : String
  ctx : Ctx
  outs : AgentOutputsRec
  final_result : FinalResult
  errors : List String
  trace : List Effect

/-- The `AttributeError` message raised by `None.get(...)` in a node when
an agent returned `result=None`. -/
def attributeErrorNoneGet : String := "\x27NoneType\x27 object has no attribute \x27get\x27"

/-- `NyayaOrchestrator._intake_node`: the context updates precede the
`agent_outputs` assignment, so a `result=None` output raises at the first
`.get` and nothing is recorded except the error. -/
def intake_node (env : Env) (st : PipeState) : PipeState :=
  match intake_run env st.query with
  | (fx, output) =>
    match output.result with
    | none =>
      { st with
        trace := st.trace ++ fx
        errors := st.errors ++ ["Intake error: " ++ attributeErrorNoneGet] }
    | some r =>
      { st with
        trace := st.trace ++ fx
        ctx := { st.ctx with
                 normalized_query := some r.normalized_query
                 embedding := some r.embedding }
        outs := { st.outs with intake := some output.confidence } }

/-- `NyayaOrchestrator._classification_node`. -/
def classification_node (env : Env) (st : PipeState) : PipeState :=
  match classification_run env st.query st.ctx.embedding with
  | (fx, .error e) =>
    { st with
      trace := st.trace ++ fx
      errors := st.errors ++ ["Classification error: " ++ e] }
  | (fx, .ok output) =>
    match output.result with
    | none =>
      { st with
        trace := st.trace ++ fx
        errors := st.errors ++ ["Classification error: " ++ attributeErrorNoneGet] }
    | some r =>
      { st with
        trace := st.trace ++ fx
        ctx := { st.ctx with
                 domains := some r.domains
                 primary_domain := some r.primary_domain }
        outs := { st.outs with classification := some output.confidence } }

/-- `NyayaOrchestrator._knowledge_node`. -/
def knowledge_node (env : Env) (st : PipeState) : PipeState :=
  match knowledge_run env st.query st.ctx.embedding with
  | (fx, .error e) =>
    { st with
      trace := st.trace ++ fx
      errors := st.errors ++ ["Knowledge retrieval error: " ++ e] }
  | (fx, .ok output) =>
    match output.result with
    | none =>
      { st with
        trace := st.trace ++ fx
        errors := st.errors ++ ["Knowledge retrieval error: " ++ attributeErrorNoneGet] }
    | some r =>
      { st with
        trace := st.trace ++ fx
        ctx := { st.ctx with statutes := some r.statutes }
        outs := { st.outs with knowledge := some output.confidence } }

/-- `NyayaOrchestrator._case_node`. -/
def case_node (env : Env) (st : PipeState) : PipeState :=
  match case_run env st.query st.ctx.embedding with
  | (fx, .error e) =>
    { st with
      trace := st.trace ++ fx
      errors := st.errors ++ ["Case similarity error: " ++ e] }
  | (fx, .ok output) =>
    match output.result with
    | none =>
      { st with
        trace := st.trace ++ fx
        errors := st.errors ++ ["Case similarity error: " ++ attributeErrorNoneGet] }
    | some core =>
      { st with
        trace := st.trace ++ fx
        ctx := { st.ctx with similar_cases := some core.similar_cases }
        outs := { st.outs with case_similarity := some output.confidence } }

/-- `NyayaOrchestrator._reasoning_node`: tolerates a `None` result and
substitutes the count-based fallback explanation when the explanation is
empty or whitespace-only.  (Its exception branch is unreachable: the
reasoning agent never raises.) -/
def reasoning_node (env : Env) (st : PipeState) : PipeState :=
  match reasoning_run env st.query (st.ctx.statutes.getD []) (st.ctx.similar_cases.getD []) with
  | (fx, output) =>
    let explanation :=
      match output.result with
      | some r => r.explanation
      | none => ""
    let explanation :=
      if explanation = "" ∨ pyStrip explanation = "" then
        "Based on " ++ toString (st.ctx.statutes.getD []).length ++
          " retrieved statutes and " ++ toString (st.ctx.similar_cases.getD []).length ++
          " similar cases, here are the relevant legal provisions."
      else explanation
    { st with
      trace := st.trace ++ fx
      ctx := { st.ctx with explanation := some explanation }
      outs := { st.outs with reasoning := some output.confidence } }

/-- `NyayaOrchestrator._recommendation_node`. -/
def recommendation_node (env : Env) (st : PipeState) : PipeState :=
  match recommendation_run env st.query st.ctx.embedding with
  | (fx, .error e) =>
    { st with
      trace := st.trace ++ fx
      errors := st.errors ++ ["Recommendation error: " ++ e] }
  | (fx, .ok output) =>
    match output.result with
    | none =>
      { st with
        trace := st.trace ++ fx
        errors := st.errors ++ ["Recommendation error: " ++ attributeErrorNoneGet] }
    | some core =>
      { st with
        trace := st.trace ++ fx
        ctx := { st.ctx with recommendations := some core.recommendations }
        outs := { st.outs with recommendation := some output.confidence } }

/-- `NyayaOrchestrator._ethics_node`: assigns `output.result` directly, so
it cannot raise in this model. -/
def ethics_node (env : Env) (st : PipeState) : PipeState :=
  match ethics_run env (st.ctx.explanation.getD "") (st.ctx.recommendations.getD []) with
  | (fx, output) =>
    { st with
      trace := st.trace ++ fx
      ctx := { st.ctx with ethics_check := output.result }
      outs := { st.outs with ethics := some output.confidence } }

/-- `NyayaOrchestrator._memory_node`: sets `memory_operation` in context,
then stores.  (The `state["context"]["agent_outputs"] = ...` copy made for
the summarization agent is modelled by `summarization_run` reading
`st.outs` directly.) -/
def memory_node (env : Env) (st : PipeState) : PipeState :=
  let st := { st with ctx := { st.ctx with memory_operation := some "store" } }
  match memory_run env st.query (st.ctx.explanation.getD "") with
  | (fx, .error e) =>
    { st with
      trace := st.trace ++ fx
      errors := st.errors ++ ["Memory error: " ++ e] }
  | (fx, .ok output) =>
    match output.result with
    | none => { st with trace := st.trace ++ fx }
    | some r =>
      { st with
        trace := st.trace ++ fx
        outs := { st.outs with memory := some ⟨output.confidence, r.case_id, r.stored⟩ } }

/-- `SummarizationAgent._collect_agent_outputs`, reading the shared
context. -/
def collect_agent_outputs (ctx : Ctx) : CollectedOutputs :=
  { query := ""
    normalized_query := ctx.normalized_query.getD ""
    domains := ctx.domains.getD []
    primary_domain := ctx.primary_domain.getD "general"
    statutes := ctx.statutes.getD []
    similar_cases := ctx.similar_cases.getD []
    explanation := ctx.explanation.getD ""
    recommendations := ctx.recommendations.getD []
    ethics_check := ctx.ethics_check }

/-- `NyayaOrchestrator._summarization_node`: record the output, use its
result as `final_result` (adding the memory agent\x27s `case_id`, which the
formatted dict lacks), or assemble the fallback dict when the agent
returned no result.  (Its exception branch is unreachable: the
summarization agent catches internally.) -/
def summarization_node (env : Env) (st : PipeState) : PipeState :=
  match summarization_run env st.query (collect_agent_outputs st.ctx) with
  | (fx, output) =>
    let st :=
      { st with
        trace := st.trace ++ fx
        outs := { st.outs with summarization := some output.confidence } }
    match output.result with
    | some r =>
      { st with final_result :=
          .fromSummarization r (st.outs.memory.map (fun m => m.case_id)) }
    | none =>
      let explanation := pyOrS (st.ctx.explanation.getD "") "Unable to generate explanation."
      let fr :=
        FinalResult.fallbackDict st.query explanation st.ctx.normalized_query
          (st.ctx.domains.getD []) (st.ctx.statutes.getD [])
          (st.ctx.similar_cases.getD []) (st.ctx.recommendations.getD [])
          (st.ctx.statutes.getD []).length (st.ctx.similar_cases.getD []).length
          (st.ctx.recommendations.getD []).length
      { st with final_result := fr }


/-- The initial `AgentState` of `process_query`. -/
def initial_state (q user_id : String) : PipeState :=
  { query := q
    ctx := { user_id := user_id }
    outs := {}
    final_result := .emptyDict
    errors := []
    trace := [] }

/-- `self.app.invoke`: the sequential composition of the nine nodes in
graph order. -/
def run_pipeline (env : Env) (q user_id : String) : PipeState :=
  summarization_node env (memory_node env (ethics_node env (recommendation_node env
    (reasoning_node env (case_node env (knowledge_node env (classification_node env
      (intake_node env (initial_state q user_id)))))))))

/-- `NyayaOrchestrator.process_query`: returns the final state's
`final_result`.  The surrounding `try/except` returns the
`{query, error, errors}` dict only when `invoke` itself raises; every node
of this embedding is total, so that branch is dead and the `final_result`
is always returned. -/
def process_query (env : Env) (q : String) (user_id : String) : FinalResult :=
  (run_pipeline env q user_id).final_result

/-- Fixture: a civic-process hit with the given action name. -/
def hitOf (a : String) : ProcHit := { payload := { action := some a }, score := 0.5 }

/-- Fixture for C4: six hits with pairwise distinct action keys. -/
def sixHits : List ProcHit :=
  [hitOf "a", hitOf "b", hitOf "c", hitOf "d", hitOf "e", hitOf "f"]

/-- Fixture: three hits, the first two with the same case-insensitive action
key ("File RTI" vs "file rti "). -/
def dupHits : List ProcHit := [hitOf "File RTI", hitOf "file rti ", hitOf "Appeal"]

/-- Fixture: an environment with every external call succeeding trivially —
no Groq client, no Tavily client, embeddings succeed, every search returns
no hits, upserts succeed. -/
def env0 : Env :=
  { groq := false
    tavily := false
    intakeEmbed := .ok 0
    classifyEmbed := .ok 0
    knowledgeEmbed := .ok 0
    caseEmbed := .ok 0
    recEmbed := .ok 0
    memoryEmbed := .ok 0
    llmClassify := []
    taxResults := []
    statuteResults := []
    caseResults := []
    llmCaseAnalyses := []
    processResults := []
    llmRecsParsed := []
    reasonProvider := .ok none
    llmSafety := none
    sumProvider := .ok none
    memUpsertOk := true
    caseId := "case-1"
    timestamp := "2024-01-01T00:00:00" }

/-- Fixture: like `env0` but with the Groq client configured. -/
def env1 : Env := { env0 with groq := true }

/-! ### Theorems -/

theorem isPrefixOf_append_self (l t : List Char) : l.isPrefixOf (l ++ t) = true := by
  induction l with
  | nil => simp [List.isPrefixOf]
  | cons a l ih => simp [List.isPrefixOf, ih]

theorem strStartsWith_append (pre t : String) : strStartsWith pre (pre ++ t) = true := by
  have h : (pre ++ t).toList = pre.toList ++ t.toList := rfl
  unfold strStartsWith
  rw [h]
  exact isPrefixOf_append_self _ _

theorem length_pyTake (s : String) (n : Nat) : (pyTake s n).length ≤ n := by
  have h : (pyTake s n).length = (s.toList.take n).length := rfl
  rw [h, List.length_take]
  exact min_le_left _ _

theorem length_pyDrop (s : String) (n : Nat) :
    (pyDrop s n).length = s.length - n := by
  have h : (pyDrop s n).length = (s.toList.drop n).length := rfl
  have h2 : s.length = s.toList.length := rfl
  rw [h, h2, List.length_drop]

theorem statute_term_nonneg (n : Nat) :
    (0 : Score) ≤ (if 0 < n then min 0.2 ((n : Score) * 0.05) else 0) := by
  split
  · exact le_min (by norm_num) (by positivity)
  · exact le_refl 0

theorem rec_term_nonneg (n : Nat) :
    (0 : Score) ≤ (if 0 < n then min 0.1 ((n : Score) * 0.02) else 0) := by
  split
  · exact le_min (by norm_num) (by positivity)
  · exact le_refl 0

theorem flag_term_nonneg (b : Bool) (c : Score) (hc : 0 ≤ c) :
    (0 : Score) ≤ (if b then c else 0) := by
  split
  · exact hc
  · exact le_refl 0

/-- The un-clipped sum in the confidence formula is nonnegative. -/
theorem confidence_core_nonneg (sc cc rc : Nat) (he hd : Bool) :
    (0 : Score) ≤
      0.3 + (if hd then 0.1 else 0)
      + (if 0 < sc then min 0.2 ((sc : Score) * 0.05) else 0)
      + (if 0 < cc then min 0.2 ((cc : Score) * 0.05) else 0)
      + (if 0 < rc then min 0.1 ((rc : Score) * 0.02) else 0)
      + (if he then 0.1 else 0) := by
  have h1 := flag_term_nonneg hd (0.1 : Score) (by norm_num)
  have h2 := statute_term_nonneg sc
  have h3 := statute_term_nonneg cc
  have h4 := rec_term_nonneg rc
  have h5 := flag_term_nonneg he (0.1 : Score) (by norm_num)
  have : (0 : Score) ≤ 0.3 := by norm_num
  linarith

theorem calculate_confidence_eq_spec (sc cc rc : Nat) (he hd : Bool) :
    calculate_confidence sc cc rc he hd = spec_pipeline_confidence sc cc rc he hd := by
  unfold calculate_confidence spec_pipeline_confidence
  rw [max_eq_right]
  · rw [min_comm]
    congr 1
    split <;> split <;> split <;> split <;> split <;> ring
  · exact le_min (by norm_num) (confidence_core_nonneg sc cc rc he hd)

theorem calculate_confidence_mem_unit (sc cc rc : Nat) (he hd : Bool) :
    0 ≤ calculate_confidence sc cc rc he hd ∧ calculate_confidence sc cc rc he hd ≤ 1 := by
  rw [calculate_confidence_eq_spec]
  unfold spec_pipeline_confidence
  constructor
  · exact le_max_left 0 _
  · exact max_le (by norm_num) (min_le_left _ _)

theorem statute_term_mono (n : Nat) :
    (if 0 < n then min 0.2 ((n : Score) * 0.05) else 0) ≤
      (if 0 < n + 1 then min 0.2 (((n + 1 : Nat) : Score) * 0.05) else 0) := by
  rcases Nat.eq_zero_or_pos n with h | h
  · subst h
    simp only [Nat.lt_irrefl, if_neg (lt_irrefl 0), Nat.zero_lt_one, if_pos]
    exact le_min (by norm_num) (by norm_num)
  · rw [if_pos h, if_pos (Nat.lt_of_lt_of_le h (Nat.le_succ n))]
    refine min_le_min (le_refl _) ?_
    have : ((n : Score)) ≤ ((n + 1 : Nat) : Score) := by push_cast; linarith
    nlinarith

theorem calculate_confidence_mono_statutes (sc cc rc : Nat) (he hd : Bool) :
    calculate_confidence sc cc rc he hd ≤ calculate_confidence (sc + 1) cc rc he hd := by
  rw [calculate_confidence_eq_spec, calculate_confidence_eq_spec]
  unfold spec_pipeline_confidence
  refine max_le_max (le_refl 0) (min_le_min (le_refl 1) ?_)
  have := statute_term_mono sc
  linarith

theorem calculate_confidence_mono_cases (sc cc rc : Nat) (he hd : Bool) :
    calculate_confidence sc cc rc he hd ≤ calculate_confidence sc (cc + 1) rc he hd := by
  rw [calculate_confidence_eq_spec, calculate_confidence_eq_spec]
  unfold spec_pipeline_confidence
  refine max_le_max (le_refl 0) (min_le_min (le_refl 1) ?_)
  have := statute_term_mono cc
  linarith

/-- C2: the aggregated pipeline confidence equals the spec formula (0.3 base
plus bounded contributions, clipped to `[0,1]`), lies in `[0,1]`, and never
decreases when one more statute or one more case is counted, all else
equal. -/
theorem pipeline_confidence_formula (sc cc rc : Nat) (he hd : Bool) :
    calculate_confidence sc cc rc he hd = spec_pipeline_confidence sc cc rc he hd
    ∧ 0 ≤ calculate_confidence sc cc rc he hd
    ∧ calculate_confidence sc cc rc he hd ≤ 1
    ∧ calculate_confidence sc cc rc he hd ≤ calculate_confidence (sc + 1) cc rc he hd
    ∧ calculate_confidence sc cc rc he hd ≤ calculate_confidence sc (cc + 1) rc he hd :=
  ⟨calculate_confidence_eq_spec sc cc rc he hd,
   (calculate_confidence_mem_unit sc cc rc he hd).1,
   (calculate_confidence_mem_unit sc cc rc he hd).2,
   calculate_confidence_mono_statutes sc cc rc he hd,
   calculate_confidence_mono_cases sc cc rc he hd⟩

theorem toList_append (a b : String) : (a ++ b).toList = a.toList ++ b.toList := rfl

theorem strStartsWith_of_toList (pre s : String) (t : List Char)
    (h : s.toList = pre.toList ++ t) : strStartsWith pre s = true := by
  unfold strStartsWith
  rw [h]
  exact isPrefixOf_append_self _ _

theorem determine_relevance_level (query : String) (p : CasePayload) (s : Score) :
    strStartsWith
      (if 0.85 < s then "Highly relevant"
        else if 0.70 < s then "Moderately relevant"
        else "Potentially relevant")
      (determine_relevance query p s) = true := by
  apply strStartsWith_of_toList _ _
    ((" (" ++ format2f s ++ "). " ++ "Similar because: " ++ p.case_name.getD "Case" ++
      " involves comparable legal principles. " ++
      "Can help understand potential precedents and outcomes.").toList)
  unfold determine_relevance
  simp only [toList_append, List.append_assoc]

/-- C6: the rule tier of the case-similarity step truncates `case_context`
to at most 200 characters and `what_happened` / `outcome` to at most 250
characters each, and the `relevance_to_query` sentence begins with the
score-banded level: "Highly relevant" for score > 0.85, "Moderately
relevant" for score > 0.70, "Potentially relevant" otherwise. -/
theorem case_extraction_budgets (p : CasePayload) (q : String) (s : Score) :
    (extract_context p).length ≤ 200
    ∧ (extract_action p).length ≤ 250
    ∧ (extract_outcome p).length ≤ 250
    ∧ (0.85 < s → strStartsWith "Highly relevant" (determine_relevance q p s) = true)
    ∧ (¬ 0.85 < s → 0.70 < s →
        strStartsWith "Moderately relevant" (determine_relevance q p s) = true)
    ∧ (¬ 0.85 < s → ¬ 0.70 < s →
        strStartsWith "Potentially relevant" (determine_relevance q p s) = true) := by
  refine ⟨?_, ?_, ?_, ?_, ?_, ?_⟩
  · unfold extract_context
    dsimp only
    split
    · exact length_pyTake _ _
    · split
      · exact length_pyTake _ _
      · decide
  · unfold extract_action
    dsimp only
    split
    · exact length_pyTake _ _
    · split
      · exact length_pyTake _ _
      · decide
  · unfold extract_outcome
    dsimp only
    split
    · exact length_pyTake _ _
    · split
      · unfold pyTakeRight
        rw [length_pyDrop]
        omega
      · decide
  · intro h
    have hl := determine_relevance_level q p s
    rwa [if_pos h] at hl
  · intro h1 h2
    have hl := determine_relevance_level q p s
    rwa [if_neg h1, if_pos h2] at hl
  · intro h1 h2
    have hl := determine_relevance_level q p s
    rwa [if_neg h1, if_neg h2] at hl

/-- C6 witness: concrete evaluations of the budget and banding facts. -/
theorem case_extraction_budgets_witness :
    (extract_context {} ).length ≤ 200
    ∧ strStartsWith "Highly relevant" (determine_relevance "" {} 0.9) = true
    ∧ strStartsWith "Moderately relevant" (determine_relevance "" {} 0.8) = true
    ∧ strStartsWith "Potentially relevant" (determine_relevance "" {} 0.5) = true :=
  ⟨(case_extraction_budgets {} "" 0.9).1,
   (case_extraction_budgets {} "" 0.9).2.2.2.1 (by norm_num),
   (case_extraction_budgets {} "" 0.8).2.2.2.2.1 (by norm_num) (by norm_num),
   (case_extraction_budgets {} "" 0.5).2.2.2.2.2 (by norm_num) (by norm_num)⟩

/-! ## C7: the generation gateway's error conversion. -/

/-- C7 counterexample: a provider-side error is NOT converted to an empty
result — the gateway returns a fixed non-empty fallback sentence (and an
empty provider response is converted to a different non-empty sentence). -/
theorem generate_response_error_not_empty :
    generate_response (Except.error "API error") ≠ ""
    ∧ generate_response (Except.ok (some "")) ≠ "" := by
  constructor <;> decide

/-- C7 (amended): the gateway is total — for every provider outcome it
returns a non-empty string; a provider-side exception is converted to the
fixed sentence "Based on the provided legal documents, ..." and an
empty/whitespace/null provider response to the fixed sentence "Unable to
generate a response at this time."; nothing is propagated to the caller. -/
theorem generate_response_total (provider : Except String (Option String)) :
    generate_response provider ≠ ""
    ∧ (∀ e, provider = Except.error e →
        generate_response provider =
          "Based on the provided legal documents, here is relevant information about your query.")
    ∧ (∀ c, provider = Except.ok c → pyStrip (c.getD "") = "" →
        generate_response provider = "Unable to generate a response at this time.") := by
  refine ⟨?_, ?_, ?_⟩
  · cases provider with
    | error e =>
      show ¬ ("Based on the provided legal documents, here is relevant information about your query." = "")
      decide
    | ok c =>
      unfold generate_response
      dsimp only
      split
      · decide
      · rename_i h
        intro hs
        exact h (Or.inr hs)
  · rintro e rfl
    rfl
  · rintro c rfl htrim
    unfold generate_response
    dsimp only
    rw [if_pos (Or.inr htrim)]

/-- C7 witness: the amended theorem applied at a concrete erroring provider. -/
theorem generate_response_total_witness :
    generate_response (Except.error "boom") =
      "Based on the provided legal documents, here is relevant information about your query." :=
  (generate_response_total (Except.error "boom")).2.1 "boom" rfl

theorem keyword_foldl_mem_mono (ql : String) (l : List (String × List String))
    (acc : List String) (d : String) (h : d ∈ acc) :
    d ∈ l.foldl (keyword_step ql) acc := by
  induction l generalizing acc with
  | nil => exact h
  | cons hd tl ih =>
    refine ih (keyword_step ql acc hd) ?_
    unfold keyword_step
    split
    · exact List.mem_append_left _ h
    · exact h

theorem keyword_foldl_mem_of_hit (ql : String) (l : List (String × List String))
    (acc : List String) (d : String) (kws : List String)
    (hmem : (d, kws) ∈ l) (hhit : kws.any (fun k => containsSub k ql) = true) :
    d ∈ l.foldl (keyword_step ql) acc := by
  induction l generalizing acc with
  | nil => cases hmem
  | cons hd tl ih =>
    rcases List.mem_cons.mp hmem with heq | htl
    · subst heq
      refine keyword_foldl_mem_mono ql tl _ d ?_
      unfold keyword_step
      rw [if_pos hhit]
      exact List.mem_append_right _ (List.mem_singleton.mpr rfl)
    · exact ih _ htl

/-- Any query whose lowercase form contains the keyword
"right to information" gets `civic_rights` among the keyword matches
(before the top-3 truncation). -/
theorem civic_rights_keyword_trigger (q : String)
    (h : containsSub "right to information" (pyLower q) = true) :
    "civic_rights" ∈ keyword_matches q := by
  refine keyword_foldl_mem_of_hit (pyLower q) keyword_map [] "civic_rights"
    ["voting", "citizen", "civic", "right to information"] (by decide) ?_
  refine List.any_eq_true.mpr ?_
  exact ⟨"right to information", by decide, h⟩

/-- C9 counterexample: for the query "How do I file an RTI application?"
the keyword fallback does NOT include "civic_rights" — in fact it matches
no domain at all, because no keyword of the table (in particular neither
"rti" nor "right to information") occurs in the lowercased query. -/
theorem rti_keyword_fallback_empty :
    keyword_classify "How do I file an RTI application?" = []
    ∧ ("civic_rights" ∈ keyword_classify "How do I file an RTI application?" → False) := by
  constructor
  · decide
  · decide

/-- C9 (amended): with the model tier failing and the taxonomy search
returning a `civic_rights` hit with score 0.6, classification returns
`primary_domain = "civic_rights"` with confidence 0.6.  If the taxonomy
search instead returns nothing, the keyword fallback yields NO domain for
this query (so `primary_domain` defaults to "general" with confidence 0.5);
the `civic_rights` keyword rule fires only for queries whose lowercase form
contains one of its table entries — e.g. any query containing
"right to information" puts `civic_rights` among the keyword matches. -/
theorem rti_scenario (q : String) :
    (classify_core [] [⟨⟨some "civic_rights"⟩, 0.6⟩] "How do I file an RTI application?").domains
        = ["civic_rights"]
    ∧ (classify_core [] [⟨⟨some "civic_rights"⟩, 0.6⟩] "How do I file an RTI application?").primary_domain
        = "civic_rights"
    ∧ (classify_core [] [⟨⟨some "civic_rights"⟩, 0.6⟩] "How do I file an RTI application?").confidence
        = 0.6
    ∧ keyword_classify "How do I file an RTI application?" = []
    ∧ (classify_core [] [] "How do I file an RTI application?").primary_domain = "general"
    ∧ (classify_core [] [] "How do I file an RTI application?").confidence = 0.5
    ∧ keyword_classify "right to information" = ["civic_rights"]
    ∧ (containsSub "right to information" (pyLower q) = true →
        "civic_rights" ∈ keyword_matches q) := by
  refine ⟨by decide, by decide, by rfl, by decide, by decide, by rfl, by decide, ?_⟩
  exact civic_rights_keyword_trigger q

/-- C9 witness: the keyword-trigger hypothesis discharged at the concrete
query "right to information". -/
theorem rti_scenario_witness :
    containsSub "right to information" (pyLower "right to information") = true
    ∧ "civic_rights" ∈ keyword_matches "right to information" :=
  ⟨by decide, (rti_scenario "right to information").2.2.2.2.2.2.2 (by decide)⟩

/-! ### Recommendation template loop: characterization and C4 -/

theorem template_go_cons_mem (r : ProcHit) (rest : List ProcHit) (seen : List String)
    (recs : List Recommendation) (hk : hitActionKey r ∈ seen) :
    template_go (r :: rest) seen recs = template_go rest seen recs := by
  simp only [template_go]
  rw [if_pos hk]

theorem template_go_cons_break (r : ProcHit) (rest : List ProcHit) (seen : List String)
    (recs : List Recommendation) (hk : hitActionKey r ∉ seen)
    (hlen : 5 ≤ (recs ++ [mkTemplateRec r (recs.length + 1)]).length) :
    template_go (r :: rest) seen recs = recs ++ [mkTemplateRec r (recs.length + 1)] := by
  simp only [template_go]
  rw [if_neg hk, if_pos hlen]

theorem template_go_cons_cont (r : ProcHit) (rest : List ProcHit) (seen : List String)
    (recs : List Recommendation) (hk : hitActionKey r ∉ seen)
    (hlen : ¬ 5 ≤ (recs ++ [mkTemplateRec r (recs.length + 1)]).length) :
    template_go (r :: rest) seen recs =
      template_go rest (hitActionKey r :: seen) (recs ++ [mkTemplateRec r (recs.length + 1)]) := by
  simp only [template_go]
  rw [if_neg hk, if_neg hlen]

theorem pruneDup_cons_mem (r : ProcHit) (rest : List ProcHit) (seen : List String)
    (hk : hitActionKey r ∈ seen) :
    pruneDup (r :: rest) seen = pruneDup rest seen := by
  simp only [pruneDup]
  rw [if_pos hk]

theorem pruneDup_cons_new (r : ProcHit) (rest : List ProcHit) (seen : List String)
    (hk : hitActionKey r ∉ seen) :
    pruneDup (r :: rest) seen = r :: pruneDup rest (hitActionKey r :: seen) := by
  simp only [pruneDup]
  rw [if_neg hk]

theorem template_go_eq (rs : List ProcHit) :
    ∀ (seen : List String) (recs : List Recommendation), recs.length < 5 →
      template_go rs seen recs =
        recs ++ withSeq recs.length ((pruneDup rs seen).take (5 - recs.length)) := by
  induction rs with
  | nil =>
    intro seen recs _
    simp [template_go, pruneDup, withSeq]
  | cons r rest ih =>
    intro seen recs h
    by_cases hk : hitActionKey r ∈ seen
    · rw [template_go_cons_mem r rest seen recs hk, pruneDup_cons_mem r rest seen hk]
      exact ih seen recs h
    · rw [pruneDup_cons_new r rest seen hk]
      by_cases hlen : 5 ≤ (recs ++ [mkTemplateRec r (recs.length + 1)]).length
      · rw [template_go_cons_break r rest seen recs hk hlen]
        have h4 : recs.length = 4 := by
          simp only [List.length_append, List.length_cons, List.length_nil] at hlen
          omega
        have h1 : 5 - recs.length = 1 := by omega
        rw [h1]
        simp [withSeq, h4]
      · rw [template_go_cons_cont r rest seen recs hk hlen]
        have hlen2 : (recs ++ [mkTemplateRec r (recs.length + 1)]).length < 5 := by
          omega
        rw [ih _ _ hlen2]
        have hsplit : 5 - recs.length = (5 - (recs.length + 1)) + 1 := by omega
        rw [hsplit, List.take_succ_cons]
        simp [withSeq, List.append_assoc]

theorem template_recommendations_eq (prs : List ProcHit) :
    template_recommendations prs = withSeq 0 ((pruneDup prs []).take 5) := by
  have h := template_go_eq prs [] [] (by norm_num)
  simpa [template_recommendations] using h

theorem length_withSeq (l : List ProcHit) : ∀ start, (withSeq start l).length = l.length := by
  induction l with
  | nil => intro start; rfl
  | cons r rest ih =>
    intro start
    simp [withSeq, ih]

theorem withSeq_map_sequence (l : List ProcHit) :
    ∀ start, (withSeq start l).map (fun rc => rc.sequence) = List.range' (start + 1) l.length := by
  induction l with
  | nil => intro start; rfl
  | cons r rest ih =>
    intro start
    simp [withSeq, List.range'_succ, ih, mkTemplateRec]

theorem pruneDup_sublist (rs : List ProcHit) :
    ∀ seen, (pruneDup rs seen).Sublist rs := by
  induction rs with
  | nil => intro seen; simp [pruneDup]
  | cons r rest ih =>
    intro seen
    by_cases hk : hitActionKey r ∈ seen
    · rw [pruneDup_cons_mem r rest seen hk]
      exact (ih seen).cons r
    · rw [pruneDup_cons_new r rest seen hk]
      exact (ih _).cons₂ r

theorem pruneDup_mem_key (rs : List ProcHit) :
    ∀ seen r, r ∈ pruneDup rs seen → hitActionKey r ∉ seen := by
  induction rs with
  | nil => intro seen r hr; simp [pruneDup] at hr
  | cons r0 rest ih =>
    intro seen r hr
    by_cases hk : hitActionKey r0 ∈ seen
    · rw [pruneDup_cons_mem r0 rest seen hk] at hr
      exact ih seen r hr
    · rw [pruneDup_cons_new r0 rest seen hk] at hr
      rcases List.mem_cons.mp hr with heq | htl
      · subst heq; exact hk
      · intro hmem
        exact ih _ r htl (List.mem_cons_of_mem _ hmem)

theorem pruneDup_keys_nodup (rs : List ProcHit) :
    ∀ seen, ((pruneDup rs seen).map hitActionKey).Nodup := by
  induction rs with
  | nil => intro seen; simp [pruneDup]
  | cons r0 rest ih =>
    intro seen
    by_cases hk : hitActionKey r0 ∈ seen
    · rw [pruneDup_cons_mem r0 rest seen hk]
      exact ih seen
    · rw [pruneDup_cons_new r0 rest seen hk]
      refine List.nodup_cons.mpr ⟨?_, ih _⟩
      intro hmem
      rcases List.mem_map.mp hmem with ⟨r, hr, hkey⟩
      exact pruneDup_mem_key rest _ r hr (hkey ▸ List.mem_cons_self _ _)

theorem pruneDup_first_wins (rs : List ProcHit) :
    ∀ seen r, r ∈ pruneDup rs seen →
      rs.find? (fun x => hitActionKey x == hitActionKey r) = some r := by
  induction rs with
  | nil => intro seen r hr; simp [pruneDup] at hr
  | cons r0 rest ih =>
    intro seen r hr
    by_cases hk : hitActionKey r0 ∈ seen
    · rw [pruneDup_cons_mem r0 rest seen hk] at hr
      have hne : hitActionKey r0 ≠ hitActionKey r := by
        intro heq
        exact pruneDup_mem_key rest seen r hr (heq ▸ hk)
      rw [List.find?_cons_of_neg _ (by simpa using hne)]
      exact ih seen r hr
    · rw [pruneDup_cons_new r0 rest seen hk] at hr
      rcases List.mem_cons.mp hr with heq | htl
      · subst heq
        rw [List.find?_cons_of_pos _ (by simp)]
      · have hnotin := pruneDup_mem_key rest _ r htl
        have hne : hitActionKey r0 ≠ hitActionKey r := by
          intro heq
          exact hnotin (heq ▸ List.mem_cons_self _ _)
        rw [List.find?_cons_of_neg _ (by simpa using hne)]
        exact ih _ r htl

theorem pruneDup_coverage (rs : List ProcHit) :
    ∀ seen r, r ∈ rs → hitActionKey r ∉ seen →
      ∃ rp ∈ pruneDup rs seen, hitActionKey rp = hitActionKey r := by
  induction rs with
  | nil => intro seen r hr; cases hr
  | cons r0 rest ih =>
    intro seen r hr hseen
    by_cases hk : hitActionKey r0 ∈ seen
    · rw [pruneDup_cons_mem r0 rest seen hk]
      rcases List.mem_cons.mp hr with heq | htl
      · exact absurd (heq ▸ hk) hseen
      · exact ih seen r htl hseen
    · rw [pruneDup_cons_new r0 rest seen hk]
      by_cases hkey : hitActionKey r0 = hitActionKey r
      · exact ⟨r0, List.mem_cons_self _ _, hkey⟩
      · rcases List.mem_cons.mp hr with heq | htl
        · exact absurd (congrArg hitActionKey heq.symm) hkey
        · have hseen2 : hitActionKey r ∉ hitActionKey r0 :: seen := by
            intro hmem
            rcases List.mem_cons.mp hmem with heq2 | h2
            · exact hkey heq2.symm
            · exact hseen h2
          rcases ih _ r htl hseen2 with ⟨rp, hrp, hrpkey⟩
          exact ⟨rp, List.mem_cons_of_mem _ hrp, hrpkey⟩

/-- C4 (amended): the rule tier of the recommendation step equals
first-occurrence deduplication by case-insensitive action key followed by a
cap at 5 and 1-based consecutive sequence numbering.  Hence: at most 5
recommendations; `sequence` fields are exactly `1..N`; selected hits have
pairwise-distinct keys, appear in retrieval order (a sublist of the input),
and each is the FIRST input record with its key; every distinct input key is
represented before the cap, and also after the cap whenever at most 5
distinct keys were retrieved.  (As stated, the claim fails when more than 5
distinct keys are retrieved: the cap drops the later ones.) -/
theorem recommendation_template_dedup (prs : List ProcHit) :
    template_recommendations prs = withSeq 0 ((pruneDup prs []).take 5)
    ∧ (template_recommendations prs).length ≤ 5
    ∧ (template_recommendations prs).map (fun rc => rc.sequence)
        = List.range' 1 (template_recommendations prs).length
    ∧ ((pruneDup prs []).map hitActionKey).Nodup
    ∧ (pruneDup prs []).Sublist prs
    ∧ (∀ r ∈ pruneDup prs [], prs.find? (fun x => hitActionKey x == hitActionKey r) = some r)
    ∧ (∀ r ∈ prs, ∃ rp ∈ pruneDup prs [], hitActionKey rp = hitActionKey r)
    ∧ ((pruneDup prs []).length ≤ 5 →
        ∀ r ∈ prs, ∃ rp ∈ (pruneDup prs []).take 5, hitActionKey rp = hitActionKey r) := by
  refine ⟨template_recommendations_eq prs, ?_, ?_, pruneDup_keys_nodup prs [],
    pruneDup_sublist prs [], pruneDup_first_wins prs [], ?_, ?_⟩
  · rw [template_recommendations_eq prs, length_withSeq]
    exact (List.length_take _ _).trans_le (min_le_left _ _)
  · rw [template_recommendations_eq prs, withSeq_map_sequence, length_withSeq]
  · intro r hr
    exact pruneDup_coverage prs [] r hr (by simp)
  · intro hlen r hr
    rw [List.take_of_length_le hlen]
    exact pruneDup_coverage prs [] r hr (by simp)

/-- C4 counterexample: six records with pairwise distinct action keys
("a".."f") yield only five recommendations — there is NO recommendation for
the distinct action "f", so the output does not contain one entry per
distinct case-insensitive action name. -/
theorem recommendation_cap_counterexample :
    ((template_recommendations sixHits).map (fun rc => rc.action)) = ["a", "b", "c", "d", "e"]
    ∧ (∃ r ∈ sixHits, hitActionKey r = "f")
    ∧ (∀ rc ∈ template_recommendations sixHits, rc.action ≠ "f") := by
  refine ⟨by decide, by decide, by decide⟩

/-- C4 witness: the amended theorem applied to a list with a duplicated
case-insensitive action key. -/
theorem recommendation_template_dedup_witness :
    (template_recommendations dupHits).map (fun rc => rc.sequence)
        = List.range' 1 (template_recommendations dupHits).length
    ∧ ∃ rp ∈ (pruneDup dupHits []).take 5,
        hitActionKey rp = hitActionKey (hitOf "file rti ") := by
  refine ⟨(recommendation_template_dedup dupHits).2.2.1, ?_⟩
  exact (recommendation_template_dedup dupHits).2.2.2.2.2.2.2 (by decide)
    (hitOf "file rti ") (List.mem_cons_of_mem _ (List.mem_cons_self _ _))

/-! ### C3: tier-fallback refinement -/

theorem classify_core_taxonomy (h0 : TaxHit) (t0 : List TaxHit) (q : String)
    (hne : taxonomy_extract_domains (h0 :: t0) ≠ []) :
    classify_core [] (h0 :: t0) q =
      { domains := taxonomy_extract_domains (h0 :: t0)
        primary_domain := (taxonomy_extract_domains (h0 :: t0)).head?.getD "general"
        confidence := h0.score
        method := "taxonomy" } := by
  obtain ⟨a, l, hx⟩ : ∃ a l, taxonomy_extract_domains (h0 :: t0) = a :: l := by
    cases hx : taxonomy_extract_domains (h0 :: t0) with
    | nil => exact absurd hx hne
    | cons a l => exact ⟨a, l, rfl⟩
  unfold classify_core
  rw [hx]
  rfl

theorem classify_core_keyword_of_nil (q : String) :
    classify_core [] [] q =
      { domains := keyword_classify q
        primary_domain := (keyword_classify q).head?.getD "general"
        confidence := 0.5
        method := "keyword" } := rfl

theorem classify_core_keyword_of_cons (h0 : TaxHit) (t0 : List TaxHit) (q : String)
    (hz : taxonomy_extract_domains (h0 :: t0) = []) :
    classify_core [] (h0 :: t0) q =
      { domains := keyword_classify q
        primary_domain := (keyword_classify q).head?.getD "general"
        confidence := 0.5
        method := "keyword" } := by
  unfold classify_core
  rw [hz]
  rfl

/-- C3: with the model tier returning nothing, the classification step's
output is exactly the heuristic (taxonomy) tier standalone — the extracted
domain list with the top hit's score as confidence; with the heuristic tier
also producing nothing, it is exactly the rule (keyword) tier standalone
with fixed confidence 0.5.  Likewise the recommendation step with a failing
model tier returns exactly the template (rule) tier standalone.  The rule
tiers are pure functions of their input in this embedding (determinism is
definitional). -/
theorem tier_fallback_refinement (tax_results : List TaxHit) (q : String)
    (parsed : List LlmRecRaw) (prs : List ProcHit) :
    (taxonomy_extract_domains tax_results ≠ [] →
      (classify_core [] tax_results q).domains = taxonomy_extract_domains tax_results
      ∧ (classify_core [] tax_results q).method = "taxonomy"
      ∧ ∀ h t, tax_results = h :: t → (classify_core [] tax_results q).confidence = h.score)
    ∧ (taxonomy_extract_domains tax_results = [] →
      (classify_core [] tax_results q).domains = keyword_classify q
      ∧ (classify_core [] tax_results q).method = "keyword"
      ∧ (classify_core [] tax_results q).confidence = 0.5)
    ∧ keyword_classify q = keyword_classify q
    ∧ llm_generate_recommendations false parsed prs = []
    ∧ (rec_core [] prs).recommendations = template_recommendations prs
    ∧ (rec_core [] prs).generation_method = "template"
    ∧ template_recommendations prs = template_recommendations prs := by
  refine ⟨?_, ?_, rfl, ?_, ?_, ?_, rfl⟩
  · intro hne
    cases tax_results with
    | nil => exact absurd rfl hne
    | cons h0 t0 =>
      rw [classify_core_taxonomy h0 t0 q hne]
      refine ⟨rfl, rfl, ?_⟩
      intro h t heq
      cases heq
      rfl
  · intro hz
    cases tax_results with
    | nil =>
      rw [classify_core_keyword_of_nil q]
      exact ⟨rfl, rfl, rfl⟩
    | cons h0 t0 =>
      rw [classify_core_keyword_of_cons h0 t0 q hz]
      exact ⟨rfl, rfl, rfl⟩
  · rfl
  · rfl
  · rfl

/-- C3 witness: the refinement equalities at a concrete taxonomy hit and a
concrete process-record list. -/
theorem tier_fallback_refinement_witness :
    (classify_core [] [⟨⟨some "tax_law"⟩, 0.7⟩] "q").domains
        = taxonomy_extract_domains [⟨⟨some "tax_law"⟩, 0.7⟩]
    ∧ (classify_core [] [⟨⟨some "tax_law"⟩, 0.7⟩] "q").confidence
        = (⟨⟨some "tax_law"⟩, 0.7⟩ : TaxHit).score
    ∧ (rec_core [] dupHits).recommendations = template_recommendations dupHits := by
  refine ⟨?_, ?_, ?_⟩
  · exact ((tier_fallback_refinement [⟨⟨some "tax_law"⟩, 0.7⟩] "q" [] dupHits).1 (by decide)).1
  · exact ((tier_fallback_refinement [⟨⟨some "tax_law"⟩, 0.7⟩] "q" [] dupHits).1
      (by decide)).2.2 _ _ rfl
  · exact (tier_fallback_refinement [] "q" [] dupHits).2.2.2.2.1

/-! ### C5: safety invariants -/

theorem withSeq_mem (l : List ProcHit) :
    ∀ start r, r ∈ withSeq start l → ∃ hit seq, r = mkTemplateRec hit seq := by
  induction l with
  | nil => intro start r hr; cases hr
  | cons h rest ih =>
    intro start r hr
    rcases List.mem_cons.mp hr with heq | htl
    · exact ⟨h, start + 1, heq⟩
    · exact ih _ r htl

theorem template_recommendations_is_legal_false (prs : List ProcHit) :
    ∀ r ∈ template_recommendations prs, r.is_legal_advice = false := by
  intro r hr
  rw [template_recommendations_eq] at hr
  rcases withSeq_mem _ _ r hr with ⟨hit, seq, rfl⟩
  rfl

theorem llm_structured_is_legal_false (parsed : List LlmRecRaw) :
    ∀ r ∈ llm_structured parsed, r.is_legal_advice = false := by
  unfold llm_structured
  generalize parsed.take 5 = l
  have h : ∀ (acc : List Recommendation), (∀ r ∈ acc, r.is_legal_advice = false) →
      ∀ r ∈ l.foldl
        (fun structured rec =>
          structured ++
            [{ action := rec.action.getD "Unnamed Action"
               responsible_authority := rec.responsible_authority.getD "Relevant Authority"
               why_this_matters := rec.why_this_matters.getD ""
               next_step := rec.next_step.getD ""
               estimated_timeline := rec.estimated_timeline.getD "Varies by case"
               is_legal_advice := false
               sequence := structured.length + 1 }]) acc,
        r.is_legal_advice = false := by
    induction l with
    | nil => intro acc hacc r hr; exact hacc r hr
    | cons x rest ih =>
      intro acc hacc r hr
      refine ih _ ?_ r hr
      intro r2 hr2
      rcases List.mem_append.mp hr2 with h2 | h2
      · exact hacc r2 h2
      · rw [List.mem_singleton.mp h2]
  exact h [] (by intro r hr; cases hr)

theorem llm_generate_is_legal_false (groq : Bool) (parsed : List LlmRecRaw)
    (prs : List ProcHit) :
    ∀ r ∈ llm_generate_recommendations groq parsed prs, r.is_legal_advice = false := by
  unfold llm_generate_recommendations
  split
  · intro r hr; cases hr
  · split
    · intro r hr; cases hr
    · exact llm_structured_is_legal_false parsed

theorem rec_core_recommendations (llm : List Recommendation) (prs : List ProcHit) :
    (rec_core llm prs).recommendations =
      if llm.isEmpty then template_recommendations prs else llm := by
  by_cases h : llm.isEmpty = true
  · simp [rec_core, h]
  · simp [rec_core, h]

theorem scan_foldl_preserves_false (mk : String → String) (t : String)
    (kws : List String) :
    ∀ st : Bool × List String, st.1 = false →
      (kws.foldl (scan_step mk t) st).1 = false := by
  induction kws with
  | nil => intro st h; exact h
  | cons k rest ih =>
    intro st h
    refine ih _ ?_
    unfold scan_step
    split
    · rfl
    · exact h

theorem scan_foldl_hit (mk : String → String) (t : String) (kws : List String)
    (kw : String) (hkw : kw ∈ kws) (hc : containsSub kw t = true) :
    ∀ st : Bool × List String, (kws.foldl (scan_step mk t) st).1 = false := by
  induction kws with
  | nil => cases hkw
  | cons k rest ih =>
    intro st
    rcases List.mem_cons.mp hkw with heq | htl
    · subst heq
      refine scan_foldl_preserves_false mk t rest _ ?_
      unfold scan_step
      rw [if_pos hc]
    · exact ih htl _

theorem scan_foldl_issues_invariant (mk : String → String) (t : String)
    (kws : List String) :
    ∀ st : Bool × List String, (st.1 = false → st.2 ≠ []) →
      ((kws.foldl (scan_step mk t) st).1 = false →
        (kws.foldl (scan_step mk t) st).2 ≠ []) := by
  induction kws with
  | nil => intro st h; exact h
  | cons k rest ih =>
    intro st h
    refine ih _ ?_
    unfold scan_step
    split
    · intro _
      simp
    · exact h

theorem recs_foldl_preserves_false (recs : List Recommendation) :
    ∀ st : Bool × List String, st.1 = false →
      ((recs.foldl (fun st r => scanKeywords recommendation_issue (rec_combined r) st) st).1
        = false) := by
  induction recs with
  | nil => intro st h; exact h
  | cons r rest ih =>
    intro st h
    exact ih _ (scan_foldl_preserves_false _ _ _ _ h)

theorem recs_foldl_issues_invariant (recs : List Recommendation) :
    ∀ st : Bool × List String, (st.1 = false → st.2 ≠ []) →
      (((recs.foldl (fun st r => scanKeywords recommendation_issue (rec_combined r) st) st).1
          = false) →
        ((recs.foldl (fun st r => scanKeywords recommendation_issue (rec_combined r) st) st).2
          ≠ [])) := by
  induction recs with
  | nil => intro st h; exact h
  | cons r rest ih =>
    intro st h
    exact ih _ (scan_foldl_issues_invariant _ _ _ _ h)

theorem recs_foldl_hit (recs : List Recommendation) (r : Recommendation)
    (hr : r ∈ recs) (kw : String) (hkw : kw ∈ problematic_keywords)
    (hc : containsSub kw (rec_combined r) = true) :
    ∀ st : Bool × List String,
      ((recs.foldl (fun st r => scanKeywords recommendation_issue (rec_combined r) st) st).1
        = false) := by
  intro st
  rcases List.append_of_mem hr with ⟨l1, l2, rfl⟩
  rw [List.foldl_append]
  simp only [List.foldl_cons]
  refine recs_foldl_preserves_false l2 _ ?_
  exact scan_foldl_hit recommendation_issue (rec_combined r) problematic_keywords kw hkw hc _

/-- The keyword scan flags as unsafe whenever one of the problematic
keywords occurs in the lowercased explanation or in the combined text of
some recommendation. -/
theorem ethics_keyword_scan_flags (explanation : String) (recs : List Recommendation)
    (kw : String) (hkw : kw ∈ problematic_keywords)
    (hhit : containsSub kw (pyLower explanation) = true
      ∨ ∃ r ∈ recs, containsSub kw (rec_combined r) = true) :
    (ethics_keyword_scan explanation recs).1 = false := by
  unfold ethics_keyword_scan
  rcases hhit with hexp | ⟨r, hr, hc⟩
  · exact recs_foldl_preserves_false recs _
      (scan_foldl_hit explanation_issue (pyLower explanation) problematic_keywords kw hkw hexp _)
  · exact recs_foldl_hit recs r hr kw hkw hc _

/-- C5: every recommendation the recommendation step can produce (model tier
or template tier) carries `is_legal_advice = false`; and whenever the
keyword safety tier fires (LLM check unavailable) and a problematic phrase
occurs, case-insensitively, in the explanation or in the combined text of
some recommendation, the safety check reports `is_safe = false` with a
non-empty issue list and a non-empty safety disclaimer in the output. -/
theorem safety_invariants (groq : Bool) (parsed : List LlmRecRaw) (prs : List ProcHit)
    (explanation : String) (recs : List Recommendation) (kw : String) :
    (∀ r ∈ (rec_core (llm_generate_recommendations groq parsed prs) prs).recommendations,
      r.is_legal_advice = false)
    ∧ (kw ∈ problematic_keywords →
        (containsSub kw (pyLower explanation) = true
          ∨ ∃ r ∈ recs, containsSub kw (rec_combined r) = true) →
        (ethics_process none explanation recs).is_safe = false
        ∧ (ethics_process none explanation recs).issues ≠ []
        ∧ (ethics_process none explanation recs).safety_disclaimer ≠ "") := by
  constructor
  · intro r hr
    rw [rec_core_recommendations] at hr
    by_cases h : (llm_generate_recommendations groq parsed prs).isEmpty = true
    · rw [if_pos h] at hr
      exact template_recommendations_is_legal_false prs r hr
    · rw [if_neg h] at hr
      exact llm_generate_is_legal_false groq parsed prs r hr
  · intro hkw hhit
    have hfalse : (ethics_keyword_scan explanation recs).1 = false :=
      ethics_keyword_scan_flags explanation recs kw hkw hhit
    have hisafe : (ethics_process none explanation recs).is_safe
        = (ethics_keyword_scan explanation recs).1 := rfl
    have hissues : (ethics_process none explanation recs).issues
        = (ethics_keyword_scan explanation recs).2 := rfl
    refine ⟨hisafe.trans hfalse, ?_, ?_⟩
    · rw [hissues]
      unfold ethics_keyword_scan
      refine recs_foldl_issues_invariant recs _ ?_ ?_
      · refine scan_foldl_issues_invariant _ _ _ _ ?_
        intro hcontra
        cases hcontra
      · unfold ethics_keyword_scan at hfalse
        exact hfalse
    · have hsd : (ethics_process none explanation recs).safety_disclaimer
          = if !(ethics_keyword_scan explanation recs).1 then safety_disclaimer_text
            else "" := rfl
      rw [hsd, hfalse]
      intro hcontra
      exact absurd hcontra (by decide)

/-- C5 witness: the safety theorem applied to the explanation
"You should sue them." (containing the problematic phrase "sue them") with
an empty recommendation list, plus the `is_legal_advice` invariant at a
concrete template run. -/
theorem safety_invariants_witness :
    (∀ r ∈ (rec_core (llm_generate_recommendations false [] dupHits) dupHits).recommendations,
      r.is_legal_advice = false)
    ∧ (ethics_process none "You should sue them." []).is_safe = false
    ∧ (ethics_process none "You should sue them." []).issues ≠ []
    ∧ (ethics_process none "You should sue them." []).safety_disclaimer ≠ "" := by
  have h := safety_invariants false [] dupHits "You should sue them." [] "sue them"
  refine ⟨h.1, ?_, ?_, ?_⟩
  · exact (h.2 (by decide) (Or.inl (by decide))).1
  · exact (h.2 (by decide) (Or.inl (by decide))).2.1
  · exact (h.2 (by decide) (Or.inl (by decide))).2.2

/-! ### C10: structured evidence bounds -/

/-- C10: the structured response's evidence lists are each truncated to at
most 5 entries, `total_evidence_count` is exactly their sum (hence at most
10), and it is 0 exactly when no statutes and no cases (under either
context key) were retrieved. -/
theorem structured_evidence_bounds (sd : List StatuteCtx) (sc lc : List CaseRec) :
    (build_retrieved_evidence sd sc lc).statutes.length ≤ 5
    ∧ (build_retrieved_evidence sd sc lc).cases.length ≤ 5
    ∧ (build_retrieved_evidence sd sc lc).total_evidence_count
        = (build_retrieved_evidence sd sc lc).statutes.length
          + (build_retrieved_evidence sd sc lc).cases.length
    ∧ (build_retrieved_evidence sd sc lc).total_evidence_count ≤ 10
    ∧ ((build_retrieved_evidence sd sc lc).total_evidence_count = 0
        ↔ sd = [] ∧ sc = [] ∧ lc = []) := by
  unfold build_retrieved_evidence
  dsimp only
  refine ⟨?_, ?_, rfl, ?_, ?_⟩
  · simp [List.length_take]
  · rcases sc with _ | ⟨c, cs⟩ <;> simp [List.length_take]
  · rcases sc with _ | ⟨c, cs⟩ <;> simp [List.length_take] <;> omega
  · rcases sc with _ | ⟨c, cs⟩ <;>
      rcases sd with _ | ⟨s, ss⟩ <;>
        simp [List.length_take]

/-! ### C1 and C8: the orchestrator's error handling -/

theorem intake_node_errors (env : Env) (st : PipeState) :
    ∃ l, (intake_node env st).errors = st.errors ++ l := by
  unfold intake_node
  split
  split
  · exact ⟨_, rfl⟩
  · exact ⟨[], by simp⟩

theorem classification_node_errors (env : Env) (st : PipeState) :
    ∃ l, (classification_node env st).errors = st.errors ++ l := by
  unfold classification_node
  split
  · exact ⟨_, rfl⟩
  · split
    · exact ⟨_, rfl⟩
    · exact ⟨[], by simp⟩

theorem knowledge_run_no_result (env : Env) (q : String) (ce : Option (Option Nat)) :
    ∀ output, (knowledge_run env q ce).2 = .ok output → output.result = none := by
  unfold knowledge_run
  split
  · intro output h
    simp only [Except.ok.injEq] at h
    rw [← h]
  · split
    · intro output h
      cases h
    · split
      · intro output h
        cases h
      · intro output h
        cases h

/-- The knowledge step records an error on EVERY run: for valid queries the
agent raises `NameError` (or an embedding error), for invalid queries the
node's `.get` on the `None` result raises `AttributeError`. -/
theorem knowledge_node_errors (env : Env) (st : PipeState) :
    ∃ e, (knowledge_node env st).errors = st.errors ++ [e] := by
  unfold knowledge_node
  split
  · exact ⟨_, rfl⟩
  · split
    · exact ⟨_, rfl⟩
    · rename_i fx output hmatch hopt r hres
      have hnone := knowledge_run_no_result env st.query st.ctx.embedding output
        (by rw [hmatch])
      rw [hres] at hnone
      cases hnone

theorem case_node_errors (env : Env) (st : PipeState) :
    ∃ l, (case_node env st).errors = st.errors ++ l := by
  unfold case_node
  split
  · exact ⟨_, rfl⟩
  · split
    · exact ⟨_, rfl⟩
    · exact ⟨[], by simp⟩

theorem reasoning_node_errors (env : Env) (st : PipeState) :
    ∃ l, (reasoning_node env st).errors = st.errors ++ l := by
  unfold reasoning_node
  split
  exact ⟨[], by simp⟩

theorem recommendation_node_errors (env : Env) (st : PipeState) :
    ∃ l, (recommendation_node env st).errors = st.errors ++ l := by
  unfold recommendation_node
  split
  · exact ⟨_, rfl⟩
  · split
    · exact ⟨_, rfl⟩
    · exact ⟨[], by simp⟩

theorem ethics_node_errors (env : Env) (st : PipeState) :
    ∃ l, (ethics_node env st).errors = st.errors ++ l := by
  unfold ethics_node
  split
  exact ⟨[], by simp⟩

theorem memory_node_errors (env : Env) (st : PipeState) :
    ∃ l, (memory_node env st).errors = st.errors ++ l := by
  unfold memory_node
  dsimp only
  split
  · exact ⟨_, rfl⟩
  · split
    · exact ⟨[], by simp⟩
    · exact ⟨[], by simp⟩

theorem summarization_node_errors (env : Env) (st : PipeState) :
    ∃ l, (summarization_node env st).errors = st.errors ++ l := by
  unfold summarization_node
  split
  split
  · exact ⟨[], by simp⟩
  · exact ⟨[], by simp⟩

theorem errors_ne_nil_append {es l : List String} (h : es ≠ []) : es ++ l ≠ [] := by
  intro hc
  rw [List.append_eq_nil] at hc
  exact h hc.1

/-- The summarization node always installs a response object: either the
agent's formatted result or the node-level fallback dict — never the empty
dict, and never a dict carrying an `errors` list. -/
theorem summarization_node_shape (env : Env) (st : PipeState) :
    (summarization_node env st).final_result ≠ FinalResult.emptyDict
    ∧ (summarization_node env st).final_result.errorsKey = none := by
  unfold summarization_node
  split
  split
  · exact ⟨(by intro h; cases h), rfl⟩
  · exact ⟨(by intro h; cases h), rfl⟩

/-- C1 (amended): `process_query` is total — for every environment and
every query (valid or not) it returns a response object, which is never the
initial empty dict and never carries an `errors` list (the
`{query, error, errors}` dict appears only when the graph invocation itself
raises, which cannot happen since every node catches); yet the run's state
always accumulates at least one non-fatal step error (the knowledge step
faults on every input), so step faults are recorded in the state's error
list but NOT in the returned response. -/
theorem process_query_always_responds (env : Env) (q uid : String) :
    (run_pipeline env q uid).errors ≠ []
    ∧ (process_query env q uid).errorsKey = none
    ∧ process_query env q uid ≠ FinalResult.emptyDict := by
  refine ⟨?_, (summarization_node_shape env _).2, (summarization_node_shape env _).1⟩
  have hk : (knowledge_node env (classification_node env (intake_node env
      (initial_state q uid)))).errors ≠ [] := by
    obtain ⟨e, he⟩ := knowledge_node_errors env
      (classification_node env (intake_node env (initial_state q uid)))
    rw [he]
    simp
  have h4 : (case_node env (knowledge_node env (classification_node env (intake_node env
      (initial_state q uid))))).errors ≠ [] := by
    obtain ⟨l, hl⟩ := case_node_errors env _
    rw [hl]
    exact errors_ne_nil_append hk
  have h5 : (reasoning_node env (case_node env (knowledge_node env (classification_node env
      (intake_node env (initial_state q uid)))))).errors ≠ [] := by
    obtain ⟨l, hl⟩ := reasoning_node_errors env _
    rw [hl]
    exact errors_ne_nil_append h4
  have h6 : (recommendation_node env (reasoning_node env (case_node env (knowledge_node env
      (classification_node env (intake_node env (initial_state q uid))))))).errors ≠ [] := by
    obtain ⟨l, hl⟩ := recommendation_node_errors env _
    rw [hl]
    exact errors_ne_nil_append h5
  have h7 : (ethics_node env (recommendation_node env (reasoning_node env (case_node env
      (knowledge_node env (classification_node env (intake_node env
        (initial_state q uid)))))))).errors ≠ [] := by
    obtain ⟨l, hl⟩ := ethics_node_errors env _
    rw [hl]
    exact errors_ne_nil_append h6
  have h8 : (memory_node env (ethics_node env (recommendation_node env (reasoning_node env
      (case_node env (knowledge_node env (classification_node env (intake_node env
        (initial_state q uid))))))))).errors ≠ [] := by
    obtain ⟨l, hl⟩ := memory_node_errors env _
    rw [hl]
    exact errors_ne_nil_append h7
  obtain ⟨l, hl⟩ := summarization_node_errors env (memory_node env (ethics_node env
    (recommendation_node env (reasoning_node env (case_node env (knowledge_node env
      (classification_node env (intake_node env (initial_state q uid)))))))))
  unfold run_pipeline
  rw [hl]
  exact errors_ne_nil_append h8

/-- C1 counterexample: a run in which a step fault occurred (the knowledge
step's `NameError` is recorded in the state's error list) yet the returned
response carries no errors list at all. -/
theorem process_query_drops_errors :
    (run_pipeline env0 "xyz" "anonymous").errors ≠ []
    ∧ (process_query env0 "xyz" "anonymous").errorsKey = none := by
  constructor
  · decide
  · decide

theorem validate_input_false (q : String) (hq : pyStrip q = "") :
    validate_input q = false := by
  unfold validate_input
  rw [hq]
  simp

theorem fallback_explanation_zero :
    pyOrS
        ("Based on " ++ toString 0 ++ " retrieved statutes and " ++ toString 0 ++
          " similar cases, here are the relevant legal provisions.")
        "Unable to generate explanation."
      = "Based on 0 retrieved statutes and 0 similar cases, here are the relevant legal provisions." := by
  decide

/-- C8 (amended): an empty or whitespace-only query is NOT short-circuited
before the pipeline: all nine nodes still execute.  The input-validating
agents short-circuit internally — no retrieval search is performed and the
recorded reasoning/summarization outputs carry confidence 0 (the other
validating agents' outputs are not even recorded, because each node's
`.get` on the `None` result raises first) — but the safety step still
invokes generation whenever the LLM client exists, and the memory (persist)
step still embeds and, when its embedding call succeeds, writes to both
memory collections.  The returned response is the summarization node's
fallback dict (with zero counts and the count-based fallback explanation),
and the state's error list is non-empty. -/
theorem empty_query_not_short_circuited (env : Env) (q uid : String)
    (hq : pyStrip q = "") :
    Effect.embed ∈ (run_pipeline env q uid).trace
    ∧ (∀ n, env.memoryEmbed = Except.ok n →
        Effect.upsert "case_memory_vectors" ∈ (run_pipeline env q uid).trace
        ∧ Effect.upsert "user_interaction_memory" ∈ (run_pipeline env q uid).trace)
    ∧ (env.groq = true → Effect.generate ∈ (run_pipeline env q uid).trace)
    ∧ (env.groq = false → ∀ e ∈ (run_pipeline env q uid).trace, e ≠ Effect.generate)
    ∧ (∀ c, Effect.search c ∉ (run_pipeline env q uid).trace)
    ∧ (run_pipeline env q uid).outs.reasoning = some 0
    ∧ (run_pipeline env q uid).outs.summarization = some 0
    ∧ (run_pipeline env q uid).outs.intake = none
    ∧ (run_pipeline env q uid).outs.classification = none
    ∧ (run_pipeline env q uid).outs.knowledge = none
    ∧ (run_pipeline env q uid).outs.case_similarity = none
    ∧ (run_pipeline env q uid).outs.recommendation = none
    ∧ (run_pipeline env q uid).final_result =
        FinalResult.fallbackDict q
          ("Based on 0 retrieved statutes and 0 similar cases, " ++
            "here are the relevant legal provisions.")
          none [] [] [] [] 0 0 0
    ∧ (run_pipeline env q uid).errors ≠ [] := by
  have hval := validate_input_false q hq
  rcases hm : env.memoryEmbed with e | n <;> cases hg : env.groq <;>
    simp [run_pipeline, intake_node, classification_node, knowledge_node, case_node,
      reasoning_node, recommendation_node, ethics_node, memory_node, summarization_node,
      intake_run, classification_run, knowledge_run, case_run, reasoning_run,
      recommendation_run, ethics_run, memory_run, summarization_run, initial_state,
      collect_agent_outputs, hval, hm, hg, fallback_explanation_zero] <;>
    norm_num

/-- C8 witness: the amended theorem at the empty query in an environment
with the LLM client configured and a succeeding memory embedding. -/
theorem empty_query_not_short_circuited_witness :
    Effect.upsert "case_memory_vectors" ∈ (run_pipeline env1 "" "anonymous").trace
    ∧ Effect.generate ∈ (run_pipeline env1 "" "anonymous").trace
    ∧ (run_pipeline env1 "" "anonymous").outs.summarization = some 0 := by
  have h := empty_query_not_short_circuited env1 "" "anonymous" (by decide)
  exact ⟨(h.2.1 0 rfl).1, h.2.2.1 rfl, h.2.2.2.2.2.2.1⟩

/-- C8 counterexample: for the whitespace-only query `" "` (with the LLM
client configured) the run still performs generation and persistence —
contradicting the claim that no retrieval, generation, or persistence step
is executed. -/
theorem whitespace_query_still_persists :
    Effect.upsert "case_memory_vectors" ∈ (run_pipeline env1 " " "anonymous").trace
    ∧ Effect.upsert "user_interaction_memory" ∈ (run_pipeline env1 " " "anonymous").trace
    ∧ Effect.generate ∈ (run_pipeline env1 " " "anonymous").trace := by
  refine ⟨by decide, by decide, by decide⟩

end Nyaya
